import Mathlib

/-!
Verification of the GRIB2 radar decoder and raster renderer.

This file gives a shallow embedding in Lean 4 of the JavaScript source of the
radar data pipeline (GRIB2 parser, data-representation unpackers, color mapper
and raster renderer) and proves properties of the embedded definitions.

Modelling conventions:
* JavaScript numbers are modelled as exact rationals (ℚ) and integers (ℤ).
  Every concrete value appearing in the proved statements (bytes, half-integer
  dBZ values, the sentinel -999, powers of two) is exactly representable in
  IEEE-754 binary32/binary64, so exact arithmetic agrees with the source on
  these statements.
* The 32-bit wrap-around of the JavaScript bitwise operators (<<, >>, |, &),
  which all coerce their operands with ToInt32, is modelled exactly by the
  functions toInt32 / jsShl / jsShr / jsAnd / jsOr below.  This wrap-around is
  observable in the source (readUint, unpackSimple) and is modelled faithfully.
* Byte buffers are lists of naturals; reading out of range yields the default
  0 (JavaScript yields undefined, which the bitwise operators also coerce
  to 0).  Theorems whose truth depends on in-range reads carry explicit
  length or bound hypotheses.
* A JavaScript value that may be NaN is modelled as an Option ℚ with none
  playing the role of NaN (NaN is falsy and isNaN-positive, which is all the
  source ever observes about it).
-/

set_option maxRecDepth 8000

namespace Grib

/-- Wrap an integer to the range of a signed 32-bit integer, as the
JavaScript ToInt32 abstract operation does. -/
def toInt32 (x : ℤ) : ℤ := (x + 2 ^ 31) % 2 ^ 32 - 2 ^ 31

/-- The unsigned 32-bit residue of an integer (the bit pattern ToInt32
operates on). -/
def bits32 (x : ℤ) : ℕ := (x % 2 ^ 32).toNat

/-- JavaScript left shift: ToInt32 both operands, shift by the count mod 32,
wrap the result to int32. -/
def jsShl (a : ℤ) (b : ℕ) : ℤ := toInt32 (toInt32 a * 2 ^ (b % 32))

/-- JavaScript sign-propagating right shift, which on the int32 range is
floor division by a power of two. -/
def jsShr (a : ℤ) (b : ℕ) : ℤ := Int.fdiv (toInt32 a) (2 ^ (b % 32))

/-- JavaScript bitwise and on int32 bit patterns. -/
def jsAnd (a b : ℤ) : ℤ := toInt32 ((bits32 a &&& bits32 b : ℕ) : ℤ)

/-- JavaScript bitwise or on int32 bit patterns. -/
def jsOr (a b : ℤ) : ℤ := toInt32 ((bits32 a ||| bits32 b : ℕ) : ℤ)

/-- Embedding of readUint from the source: value = (value << 8) | buffer[offset + i]
folded over i < bytes, with JavaScript int32 semantics for << and |. -/
def readUint (buffer : List ℕ) (offset bytes : ℕ) : ℤ :=
  (List.range bytes).foldl
    (fun value i => jsOr (jsShl value 8) ((buffer.getD (offset + i) 0 : ℕ) : ℤ)) 0

/-- Embedding of readInt from the source: GRIB2 sign-magnitude decoding built
on top of readUint, with the sign bit computed by 1 << (bytes * 8 - 1). -/
def readInt (buffer : List ℕ) (offset bytes : ℕ) : ℤ :=
  let value := readUint buffer offset bytes
  let signBit := jsShl 1 (bytes * 8 - 1)
  if jsAnd value signBit ≠ 0 then -(jsAnd value (signBit - 1)) else value

/-- The mathematical big-endian value of the bytes at offset..offset+bytes-1:
the unsigned integer assembled MSB-first, without any 32-bit truncation.
This is the value the spec says read_u must return. -/
def beUint (buffer : List ℕ) (offset bytes : ℕ) : ℕ :=
  (List.range bytes).foldl
    (fun value i => value * 256 + buffer.getD (offset + i) 0) 0

/-- Modelled from the spec (read_i contract): GRIB2 sign-magnitude
interpretation of n big-endian bytes.  If the high bit of the first byte is
clear the result is the unsigned big-endian value, otherwise it is
-(unsigned_value & (2^(8n-1) - 1)).  Used only to compare the source's
readInt against the specified behaviour. -/
def specReadI (buffer : List ℕ) (offset bytes : ℕ) : ℤ :=
  let u := beUint buffer offset bytes
  if u < 2 ^ (bytes * 8 - 1) then (u : ℤ)
  else -((u &&& (2 ^ (bytes * 8 - 1) - 1) : ℕ) : ℤ)

lemma toInt32_of_lt {x : ℤ} (h0 : 0 ≤ x) (h : x < 2 ^ 31) : toInt32 x = x := by
  unfold toInt32; omega

lemma bits32_toInt32 (x : ℤ) : bits32 (toInt32 x) = bits32 x := by
  unfold bits32 toInt32; omega

lemma bits32_ofNat {n : ℕ} (h : n < 2 ^ 32) : bits32 ((n : ℤ)) = n := by
  show (((n : ℤ)) % 2 ^ 32).toNat = n
  rw [Int.emod_eq_of_lt (by positivity) (by exact_mod_cast h)]
  simp

lemma getD_lt_256 {buffer : List ℕ} (h : ∀ b ∈ buffer, b < 256) (k : ℕ) :
    buffer.getD k 0 < 256 := by
  rw [List.getD_eq_getElem?_getD]
  cases hk : buffer[k]? with
  | none => simp
  | some v =>
    have hv : v ∈ buffer := List.getElem?_mem hk
    simpa using h v hv

lemma readUint_succ (buffer : List ℕ) (offset n : ℕ) :
    readUint buffer offset (n + 1) =
      jsOr (jsShl (readUint buffer offset n) 8)
        ((buffer.getD (offset + n) 0 : ℕ) : ℤ) := by
  unfold readUint
  rw [List.range_succ, List.foldl_append, List.foldl_cons, List.foldl_nil]

lemma beUint_succ (buffer : List ℕ) (offset n : ℕ) :
    beUint buffer offset (n + 1) =
      beUint buffer offset n * 256 + buffer.getD (offset + n) 0 := by
  unfold beUint
  rw [List.range_succ, List.foldl_append, List.foldl_cons, List.foldl_nil]

lemma beUint_lt {buffer : List ℕ} (h : ∀ b ∈ buffer, b < 256) (offset : ℕ) :
    ∀ n, beUint buffer offset n < 2 ^ (8 * n) := by
  intro n
  induction n with
  | zero => simp [beUint]
  | succ n ih =>
    have hb := getD_lt_256 h (offset + n)
    have hpow : (2 : ℕ) ^ (8 * (n + 1)) = 2 ^ (8 * n) * 256 := by
      rw [show 8 * (n + 1) = 8 * n + 8 by ring, pow_add]; norm_num
    rw [beUint_succ, hpow]
    omega

lemma readUint_step {v : ℤ} {b : ℕ} (h0 : 0 ≤ v) (hv : v < 2 ^ 24) (hb : b < 256) :
    jsOr (jsShl v 8) ((b : ℕ) : ℤ) = toInt32 (v * 256 + b) := by
  unfold jsOr jsShl
  rw [toInt32_of_lt h0 (by nlinarith), bits32_toInt32]
  have h256 : (2 : ℤ) ^ (8 % 32) = 256 := by norm_num
  rw [h256]
  have hb32 : bits32 ((b : ℤ)) = b := bits32_ofNat (by omega)
  rw [hb32]
  have hv256 : bits32 (v * 256) = 2 ^ 8 * v.toNat := by
    unfold bits32
    have : v * 256 < 2 ^ 32 := by nlinarith
    omega
  rw [hv256, ← Nat.mul_add_lt_is_or (show b < 2 ^ 8 by omega) v.toNat]
  congr 1
  push_cast
  omega

lemma readUint_eq_beUint {buffer : List ℕ} (h : ∀ b ∈ buffer, b < 256)
    (offset : ℕ) : ∀ n, n ≤ 4 →
    readUint buffer offset n = toInt32 ((beUint buffer offset n : ℕ) : ℤ) := by
  intro n
  induction n with
  | zero => intro _; simp [readUint, beUint, toInt32]
  | succ n ih =>
    intro hn
    have hn4 : n ≤ 3 := by omega
    have hu : beUint buffer offset n < 2 ^ 24 := by
      have := beUint_lt h offset n
      have hle : (2 : ℕ) ^ (8 * n) ≤ 2 ^ 24 :=
        Nat.pow_le_pow_right (by norm_num) (by omega)
      omega
    rw [readUint_succ, ih (by omega),
      toInt32_of_lt (by positivity) (by exact_mod_cast lt_of_lt_of_le hu (by norm_num)),
      readUint_step (by positivity) (by exact_mod_cast hu) (getD_lt_256 h (offset + n)),
      beUint_succ]
    congr 1

lemma readInt_aux {u k : ℕ} (hk : k ≤ 31) (hu : u < 2 ^ (k + 1)) :
    (if jsAnd (toInt32 ((u : ℤ))) (jsShl 1 k) ≠ 0 then
        -(jsAnd (toInt32 ((u : ℤ))) (jsShl 1 k - 1))
      else toInt32 ((u : ℤ))) =
    if u < 2 ^ k then (u : ℤ) else -((u &&& (2 ^ k - 1) : ℕ) : ℤ) := by
  have hp1 : (0 : ℕ) < 2 ^ k := Nat.two_pow_pos k
  have hp31 : (2 : ℕ) ^ k ≤ 2 ^ 31 := Nat.pow_le_pow_right (by norm_num) hk
  have hp2 : (2 : ℕ) ^ (k + 1) = 2 * 2 ^ k := by rw [pow_succ]; ring
  have hu32 : u < 2 ^ 32 := by omega
  have hk32 : k % 32 = k := Nat.mod_eq_of_lt (by omega)
  have hshl : jsShl 1 k = toInt32 (((2 ^ k : ℕ) : ℤ)) := by
    have h1 : toInt32 (1 : ℤ) = 1 := by unfold toInt32; decide
    unfold jsShl
    rw [hk32, h1, one_mul]
    congr 1
    push_cast
    ring
  have hbits_u : bits32 (toInt32 ((u : ℤ))) = u := by
    rw [bits32_toInt32]; exact bits32_ofNat hu32
  have hbits_sb : bits32 (jsShl 1 k) = 2 ^ k := by
    rw [hshl, bits32_toInt32]
    exact bits32_ofNat (lt_of_le_of_lt hp31 (by norm_num))
  have hbits_sb1 : bits32 (jsShl 1 k - 1) = 2 ^ k - 1 := by
    rw [hshl]
    by_cases hk31 : k = 31
    · subst hk31; decide
    · have hlt : (2 : ℕ) ^ k < 2 ^ 31 := Nat.pow_lt_pow_right (by norm_num) (by omega)
      rw [toInt32_of_lt (by positivity) (by exact_mod_cast hlt)]
      unfold bits32
      have h1 : (0 : ℤ) ≤ ((2 ^ k : ℕ) : ℤ) - 1 := by
        have : (1 : ℕ) ≤ 2 ^ k := Nat.one_le_two_pow
        omega
      have h2 : ((2 ^ k : ℕ) : ℤ) - 1 < 2 ^ 32 := by
        have : (2 : ℕ) ^ k < 2 ^ 32 := lt_of_le_of_lt hp31 (by norm_num)
        omega
      rw [Int.emod_eq_of_lt h1 h2]
      omega
  have hand_sb : jsAnd (toInt32 ((u : ℤ))) (jsShl 1 k) =
      toInt32 ((u &&& 2 ^ k : ℕ) : ℤ) := by
    unfold jsAnd
    rw [hbits_u, hbits_sb]
  have hand_mask : jsAnd (toInt32 ((u : ℤ))) (jsShl 1 k - 1) =
      toInt32 ((u % 2 ^ k : ℕ) : ℤ) := by
    unfold jsAnd
    rw [hbits_u, hbits_sb1, Nat.and_pow_two_sub_one_eq_mod]
  by_cases hcase : u < 2 ^ k
  · have htb : u.testBit k = false := Nat.testBit_lt_two_pow hcase
    have hand0 : u &&& 2 ^ k = 0 := by
      have h2 := Nat.and_two_pow u k
      rw [htb] at h2
      simpa using h2
    rw [hand_sb, hand0]
    have h0 : toInt32 (((0 : ℕ) : ℤ)) = 0 := by unfold toInt32; decide
    rw [h0, if_neg (by simp), if_pos hcase]
    have h31 : u < 2 ^ 31 := lt_of_lt_of_le hcase hp31
    have h31i : (u : ℤ) < 2 ^ 31 := by exact_mod_cast h31
    exact toInt32_of_lt (Int.natCast_nonneg u) h31i
  · -- sign bit set: both sides are minus the masked low bits
    have hge : 2 ^ k ≤ u := le_of_not_lt hcase
    have hdiv : u / 2 ^ k = 1 := Nat.div_eq_of_lt_le (by omega) (by omega)
    have htb : u.testBit k = true := by
      rw [Nat.testBit_to_div_mod, hdiv]
      decide
    have hand2k : u &&& 2 ^ k = 2 ^ k := by
      have h2 := Nat.and_two_pow u k
      rw [htb] at h2
      simpa using h2
    have hne : toInt32 (((2 ^ k : ℕ) : ℤ)) ≠ 0 := by
      by_cases hk31 : k = 31
      · subst hk31; decide
      · have hlt : (2 : ℕ) ^ k < 2 ^ 31 := Nat.pow_lt_pow_right (by norm_num) (by omega)
        rw [toInt32_of_lt (Int.natCast_nonneg _) (by exact_mod_cast hlt)]
        have h1 : (1 : ℕ) ≤ 2 ^ k := Nat.one_le_two_pow
        omega
    have hmod : u % 2 ^ k < 2 ^ k := Nat.mod_lt _ hp1
    have hmod31 : u % 2 ^ k < 2 ^ 31 := lt_of_lt_of_le hmod hp31
    have hmod31i : ((u % 2 ^ k : ℕ) : ℤ) < 2 ^ 31 := by exact_mod_cast hmod31
    have hfin : toInt32 ((u % 2 ^ k : ℕ) : ℤ) = ((u % 2 ^ k : ℕ) : ℤ) :=
      toInt32_of_lt (Int.natCast_nonneg _) hmod31i
    rw [hand_sb, hand2k, if_pos hne, if_neg hcase, hand_mask, hfin,
      Nat.and_pow_two_sub_one_eq_mod]

/-- Claim C2: for every n in {1,2,4} and every byte sequence, readInt returns
the GRIB2 sign-magnitude interpretation (specReadI): the unsigned big-endian
value when the high bit of the first byte is clear, and
-(unsigned_value &&& (2^(8n-1) - 1)) when it is set; in particular
readInt [0x80, 0x00, 0x00, 0x01] 4 = -1, not the two's-complement INT32_MIN. -/
theorem claim_C2_readInt_sign_magnitude :
    (∀ (n : ℕ), n = 1 ∨ n = 2 ∨ n = 4 → ∀ (buffer : List ℕ) (offset : ℕ),
      (∀ b ∈ buffer, b < 256) →
      readInt buffer offset n = specReadI buffer offset n) ∧
    readInt [0x80, 0x00, 0x00, 0x01] 0 4 = -1 := by
  constructor
  · intro n hn buffer offset hb
    have hn1 : 1 ≤ n := by rcases hn with h | h | h <;> omega
    have hn4 : n ≤ 4 := by rcases hn with h | h | h <;> omega
    have hexp : n * 8 - 1 + 1 = 8 * n := by omega
    have hu : beUint buffer offset n < 2 ^ (n * 8 - 1 + 1) := by
      rw [hexp]; exact beUint_lt hb offset n
    simp only [readInt, specReadI]
    rw [readUint_eq_beUint hb offset n hn4]
    exact readInt_aux (by omega) hu
  · decide

/-- Witness for C2: instantiation at n = 4 with the buffer
[0x80, 0x00, 0x00, 0x01], whose sign-magnitude value is -1. -/
theorem claim_C2_readInt_sign_magnitude_witness :
    readInt [0x80, 0x00, 0x00, 0x01] 0 4 = specReadI [0x80, 0x00, 0x00, 0x01] 0 4 ∧
    specReadI [0x80, 0x00, 0x00, 0x01] 0 4 = -1 :=
  ⟨claim_C2_readInt_sign_magnitude.1 4 (by tauto) [0x80, 0x00, 0x00, 0x01] 0
    (by decide), by decide⟩

/-- Claim C9 (code bug): readUint is documented as an unsigned big-endian
reader for 1..8 bytes, but its accumulator (value << 8) | byte is wrapped to
a signed 32-bit integer by JavaScript, so a 4-byte read with the high bit set
comes back negative and reads of 5..8 bytes lose the high bytes entirely.
The big-endian values of the two buffers are 2^31 and 2^32. -/
theorem claim_C9_readUint_wraps_to_int32 :
    readUint [0x80, 0x00, 0x00, 0x00] 0 4 = -(2 ^ 31) ∧
    beUint [0x80, 0x00, 0x00, 0x00] 0 4 = 2 ^ 31 ∧
    readUint [0x01, 0x00, 0x00, 0x00, 0x00] 0 5 = 0 ∧
    beUint [0x01, 0x00, 0x00, 0x00, 0x00] 0 5 = 2 ^ 32 := by
  refine ⟨by decide, by decide, by decide, by decide⟩

/-! ## Template 200: MRMS run-length unpacking (claim C1) -/

/-- Decoding of one run-length value byte, from the source:
dbz = value === 0 ? -999 : value * 0.5 - 33 (0.5 is written 1/2, the same
rational). -/
def rlDecodeByte (value : ℕ) : ℚ :=
  if value = 0 then -999 else (value : ℚ) * (1 / 2) - 33

/-- Embedding of the inner fill loop of unpackRunLength:
for (j = 0; j < count && i < numPoints; j++, i++) values[i] = dbz.
Returns the updated values array and write index; structural recursion on the
remaining count. -/
def rlFill (values : List ℚ) (numPoints : ℕ) (dbz : ℚ) (i : ℕ) :
    ℕ → List ℚ × ℕ
  | 0 => (values, i)
  | count + 1 =>
    if i < numPoints then rlFill (values.set i dbz) numPoints dbz (i + 1) count
    else (values, i)

/-- Embedding of the outer while loop of unpackRunLength.  The guard
pos < dataBuffer.length - 1 is written pos + 1 < dataBuffer.length (equivalent
over ℕ).  The loop advances pos by 2 each iteration, so it runs at most
dataBuffer.length / 2 + 1 times; the fuel argument is an upper bound on the
remaining iterations and never runs out when called with that bound. -/
def rlLoop (dataBuffer : List ℕ) (numPoints : ℕ) :
    ℕ → List ℚ → ℕ → ℕ → List ℚ
  | 0, values, _, _ => values
  | fuel + 1, values, i, pos =>
    if pos + 1 < dataBuffer.length ∧ i < numPoints then
      let value := dataBuffer.getD pos 0
      let count := dataBuffer.getD (pos + 1) 0
      let dbz := rlDecodeByte value
      let r := rlFill values numPoints dbz i count
      rlLoop dataBuffer numPoints fuel r.1 r.2 (pos + 2)
    else values

/-- Embedding of unpackRunLength (template 200): a Float32Array of numPoints
cells prefilled with the missing sentinel -999, then the run-length loop. -/
def unpackRunLength (dataBuffer : List ℕ) (numPoints : ℕ) : List ℚ :=
  rlLoop dataBuffer numPoints (dataBuffer.length / 2 + 1)
    (List.replicate numPoints (-999)) 0 0

/-- Modelled from the spec (template 200): the buffer split into consecutive
(value, count) pairs, a trailing odd byte ignored. -/
def rlPairs : List ℕ → List (ℕ × ℕ)
  | v :: c :: rest => (v, c) :: rlPairs rest
  | _ => []

/-- Modelled from the spec (template 200): the decoded stream, count copies of
the decoded dBZ for each (value, count) pair. -/
def rlStream (buf : List ℕ) : List ℚ :=
  (rlPairs buf).flatMap fun p => List.replicate p.2 (rlDecodeByte p.1)

/-- Modelled from the spec (template 200): the field is the decoded stream
truncated to num_points cells and padded with the missing sentinel -999. -/
def specRunLength (buf : List ℕ) (numPoints : ℕ) : List ℚ :=
  (rlStream buf).take numPoints ++
    List.replicate (numPoints - (rlStream buf).length) (-999)

/-- Sequential overwrite of a list starting at index i, the effect of the
write loops of the decoder. -/
def writeFrom (values : List ℚ) (i : ℕ) : List ℚ → List ℚ
  | [] => values
  | x :: xs => writeFrom (values.set i x) (i + 1) xs

lemma writeFrom_length (l : List ℚ) :
    ∀ (values : List ℚ) (i : ℕ), (writeFrom values i l).length = values.length := by
  induction l with
  | nil => intro values i; rfl
  | cons x xs ih =>
    intro values i
    simp only [writeFrom, ih, List.length_set]

lemma writeFrom_append (l1 l2 : List ℚ) :
    ∀ (values : List ℚ) (i : ℕ),
      writeFrom values i (l1 ++ l2) =
        writeFrom (writeFrom values i l1) (i + l1.length) l2 := by
  induction l1 with
  | nil => intro values i; simp [writeFrom]
  | cons x xs ih =>
    intro values i
    simp only [List.cons_append, writeFrom, List.length_cons]
    rw [show i + (xs.length + 1) = i + 1 + xs.length from by omega]
    exact ih (values.set i x) (i + 1)

lemma writeFrom_cons_shift (l : List ℚ) :
    ∀ (y : ℚ) (values : List ℚ) (i : ℕ),
      writeFrom (y :: values) (i + 1) l = y :: writeFrom values i l := by
  induction l with
  | nil => intro y values i; rfl
  | cons z zs ih =>
    intro y values i
    simp only [writeFrom, List.set_cons_succ, ih]

lemma writeFrom_replicate (l : List ℚ) :
    ∀ (n : ℕ) (d : ℚ), l.length ≤ n →
      writeFrom (List.replicate n d) 0 l = l ++ List.replicate (n - l.length) d := by
  induction l with
  | nil => intro n d _; simp [writeFrom]
  | cons x xs ih =>
    intro n d hlen
    match n with
    | m + 1 =>
      simp only [writeFrom, List.replicate_succ, List.set_cons_zero]
      rw [show (0 : ℕ) + 1 = 0 + 1 from rfl, writeFrom_cons_shift,
        ih m d (by simpa using hlen)]
      simp

lemma rlFill_eq (numPoints : ℕ) (dbz : ℚ) :
    ∀ (count : ℕ) (values : List ℚ) (i : ℕ), i ≤ numPoints →
      rlFill values numPoints dbz i count =
        (writeFrom values i (List.replicate (min count (numPoints - i)) dbz),
          i + min count (numPoints - i)) := by
  intro count
  induction count with
  | zero => intro values i _; simp [rlFill, writeFrom]
  | succ count ih =>
    intro values i hi
    by_cases h : i < numPoints
    · have hmin : min (count + 1) (numPoints - i) =
          min count (numPoints - (i + 1)) + 1 := by omega
      simp only [rlFill, if_pos h]
      rw [ih (values.set i dbz) (i + 1) (by omega), hmin, List.replicate_succ]
      simp only [writeFrom, Prod.mk.injEq]
      exact ⟨trivial, by omega⟩
    · have hz : numPoints - i = 0 := by omega
      simp [rlFill, if_neg h, hz, writeFrom]

lemma rlPairs_short {l : List ℕ} (h : l.length ≤ 1) : rlPairs l = [] := by
  match l with
  | [] => rfl
  | [a] => rfl
  | a :: b :: rest => simp at h

lemma rlLoop_eq (buf : List ℕ) (numPoints : ℕ) :
    ∀ (fuel : ℕ) (values : List ℚ) (i pos : ℕ),
      values.length = numPoints → i ≤ numPoints →
      buf.length ≤ pos + 2 * fuel →
      rlLoop buf numPoints fuel values i pos =
        writeFrom values i ((rlStream (buf.drop pos)).take (numPoints - i)) := by
  intro fuel
  induction fuel with
  | zero =>
    intro values i pos hlen hi hfuel
    have hdrop : buf.drop pos = [] := List.drop_eq_nil_of_le (by omega)
    simp [rlLoop, hdrop, rlStream, rlPairs, writeFrom]
  | succ fuel ih =>
    intro values i pos hlen hi hfuel
    by_cases hcond : pos + 1 < buf.length ∧ i < numPoints
    · obtain ⟨hpos, hilt⟩ := hcond
      have hpos0 : pos < buf.length := by omega
      have hget0 : buf.getD pos 0 = buf[pos] := List.getD_eq_getElem buf 0 hpos0
      have hget1 : buf.getD (pos + 1) 0 = buf[pos + 1] :=
        List.getD_eq_getElem buf 0 hpos
      have hdrop : buf.drop pos =
          buf.getD pos 0 :: buf.getD (pos + 1) 0 :: buf.drop (pos + 2) := by
        rw [List.drop_eq_getElem_cons hpos0, List.drop_eq_getElem_cons hpos,
          hget0, hget1]
      set v := buf.getD pos 0 with hv
      set c := buf.getD (pos + 1) 0 with hc
      have hstream : rlStream (buf.drop pos) =
          List.replicate c (rlDecodeByte v) ++ rlStream (buf.drop (pos + 2)) := by
        rw [hdrop]
        simp [rlStream, rlPairs]
      simp only [rlLoop, if_pos (And.intro hpos hilt)]
      rw [rlFill_eq numPoints (rlDecodeByte v) c values i hi]
      have hmin : min c (numPoints - i) = min (numPoints - i) c := Nat.min_comm _ _
      rw [ih (writeFrom values i (List.replicate (min c (numPoints - i)) (rlDecodeByte v)))
            (i + min c (numPoints - i)) (pos + 2)
            (by rw [writeFrom_length]; exact hlen)
            (by have := Nat.min_le_right c (numPoints - i); omega) (by omega)]
      rw [hstream, List.take_append_eq_append_take, List.take_replicate,
        List.length_replicate, writeFrom_append, List.length_replicate]
      have harith : numPoints - (i + min c (numPoints - i)) =
          numPoints - i - c := by
        simp only [Nat.min_def]
        split_ifs <;> omega
      rw [harith, hmin]
    · simp only [rlLoop, if_neg hcond]
      rcases not_and_or.mp hcond with hpos | hige
      · have hshort : (buf.drop pos).length ≤ 1 := by
          rw [List.length_drop]; omega
        have hstream : rlStream (buf.drop pos) = [] := by
          unfold rlStream
          rw [rlPairs_short hshort]
          rfl
        rw [hstream]
        simp [writeFrom]
      · have hz : numPoints - i = 0 := by omega
        rw [hz]
        simp [writeFrom]

lemma unpackRunLength_eq_spec (dataBuffer : List ℕ) (numPoints : ℕ) :
    unpackRunLength dataBuffer numPoints = specRunLength dataBuffer numPoints := by
  unfold unpackRunLength
  rw [rlLoop_eq dataBuffer numPoints (dataBuffer.length / 2 + 1)
    (List.replicate numPoints (-999)) 0 0 (List.length_replicate _ _)
    (Nat.zero_le _) (by omega)]
  rw [List.drop_zero, Nat.sub_zero]
  have hlen : ((rlStream dataBuffer).take numPoints).length ≤ numPoints := by
    simp
  rw [writeFrom_replicate _ numPoints (-999) hlen]
  unfold specRunLength
  congr 1
  simp only [List.length_take]
  congr 1
  omega

/-- Claim C1 (amended): the template 200 decoder consumes the buffer as
(value, count) pairs, emits count copies of the dBZ decoded as -999 for
value 0 and value * 0.5 - 33 otherwise, stops when the field fills or the
buffer is exhausted, and leaves the -999 prefill in any remaining cells;
for the data [0x00, 0x02, 0x80, 0x02] with num_points = 4 the decoded field
is [-999, -999, 31, 31] (0x80 = 128 and 128 * 0.5 - 33 = 31). -/
theorem claim_C1_run_length_amended :
    (∀ (dataBuffer : List ℕ) (numPoints : ℕ),
      unpackRunLength dataBuffer numPoints = specRunLength dataBuffer numPoints) ∧
    unpackRunLength [0x00, 0x02, 0x80, 0x02] 4 = [-999, -999, 31, 31] := by
  refine ⟨unpackRunLength_eq_spec, ?_⟩
  rw [unpackRunLength_eq_spec]
  norm_num [specRunLength, rlStream, rlPairs, rlDecodeByte, List.replicate]

/-- Claim C1 counterexample: on the data [0x00, 0x02, 0x80, 0x02] with
num_points = 4 the decoder yields [-999, -999, 31, 31], not the
[-999, -999, -1, -1] the claim states (the claim reads byte 0x80 as 64, but
0x80 = 128, and 128 * 0.5 - 33 = 31). -/
theorem claim_C1_run_length_counterexample :
    unpackRunLength [0x00, 0x02, 0x80, 0x02] 4 = [-999, -999, 31, 31] ∧
    unpackRunLength [0x00, 0x02, 0x80, 0x02] 4 ≠ [-999, -999, -1, -1] := by
  constructor
  · rw [unpackRunLength_eq_spec]
    norm_num [specRunLength, rlStream, rlPairs, rlDecodeByte, List.replicate]
  · rw [unpackRunLength_eq_spec]
    norm_num [specRunLength, rlStream, rlPairs, rlDecodeByte, List.replicate]

/-! ## Template 0: simple packing (claim C3) -/

/-- Embedding of the inner bit-extraction while loop of unpackSimple.  The
loop state is (packedValue, bitsRemaining, currentByte, currentBitPos); each
iteration consumes bitsToRead = min(bitsRemaining, 8 - currentBitPos) bits.
The extra fuel argument only bounds the iteration count: every call made by
unpackSimple starts with currentBitPos ≤ 7, so each iteration consumes at
least one bit and fuel = bitsPerValue iterations always suffice. -/
def readPackedLoop (dataBuffer : List ℕ) :
    ℕ → ℤ → ℕ → ℕ → ℕ → ℤ
  | 0, packedValue, _, _, _ => packedValue
  | fuel + 1, packedValue, bitsRemaining, currentByte, currentBitPos =>
    if bitsRemaining = 0 then packedValue
    else
      let bitsToRead := min bitsRemaining (8 - currentBitPos)
      let mask := jsShl 1 bitsToRead - 1
      let shift := 8 - currentBitPos - bitsToRead
      let packedValue2 :=
        if currentByte < dataBuffer.length then
          jsOr (jsShl packedValue bitsToRead)
            (jsAnd (jsShr ((dataBuffer.getD currentByte 0 : ℕ) : ℤ) shift) mask)
        else packedValue
      let bitsRemaining2 := bitsRemaining - bitsToRead
      if currentBitPos + bitsToRead ≥ 8 then
        readPackedLoop dataBuffer fuel packedValue2 bitsRemaining2
          (currentByte + 1) 0
      else
        readPackedLoop dataBuffer fuel packedValue2 bitsRemaining2
          currentByte (currentBitPos + bitsToRead)

/-- Embedding of unpackSimple (template 0): if bits_per_value is zero the
whole field is R * 10^(-D); otherwise cell i is decoded from the
bits_per_value bits at bit offset i * bits_per_value (the source tracks the
offset incrementally, which equals i * bitsPerValue at iteration i). -/
def unpackSimple (dataBuffer : List ℕ) (referenceValue : ℚ)
    (binaryScaleFactor decimalScaleFactor : ℤ)
    (bitsPerValue numPoints : ℕ) : List ℚ :=
  let binaryFactor : ℚ := 2 ^ binaryScaleFactor
  let decimalFactor : ℚ := 10 ^ (-decimalScaleFactor)
  if bitsPerValue = 0 then List.replicate numPoints (referenceValue * decimalFactor)
  else
    (List.range numPoints).map fun i =>
      let bitOffset := i * bitsPerValue
      let byteOffset := bitOffset / 8
      let bitPosition := bitOffset % 8
      let packedValue :=
        readPackedLoop dataBuffer bitsPerValue 0 bitsPerValue byteOffset bitPosition
      (referenceValue + (packedValue : ℚ) * binaryFactor) * decimalFactor

/-- Modelled from the spec (read_bits contract): extract bit_width bits
starting at bit_offset, counted from the MSB of byte 0, crossing byte
boundaries, assembled MSB-first.  Used only to compare unpackSimple against
the specified extraction. -/
def specReadBits (base : List ℕ) (bitOffset bitWidth : ℕ) : ℕ :=
  (List.range bitWidth).foldl
    (fun acc t =>
      2 * acc + base.getD ((bitOffset + t) / 8) 0 / 2 ^ (7 - (bitOffset + t) % 8) % 2)
    0

/-- Claim C3 (code bug): for bits_per_value = 32 the accumulator
(packedValue << bitsToRead) | bits is wrapped to a signed 32-bit integer by
JavaScript, so a 32-bit field with its top bit set decodes as a negative
number.  On data [0x80, 0x00, 0x00, 0x00] with R = 0, E = 0, D = 0 and
num_points = 1 the code yields [-2147483648], while the specified MSB-first
extraction gives X_0 = 2^31 = 2147483648 and hence the cell value
(R + X_0 * 2^E) * 10^(-D) = 2147483648. -/
theorem claim_C3_simple_packing_bit32_bug :
    unpackSimple [0x80, 0x00, 0x00, 0x00] 0 0 0 32 1 = [-2147483648] ∧
    specReadBits [0x80, 0x00, 0x00, 0x00] 0 32 = 2147483648 ∧
    ((0 : ℚ) + ((specReadBits [0x80, 0x00, 0x00, 0x00] 0 32 : ℕ) : ℚ) * 2 ^ (0 : ℤ)) *
        10 ^ (-(0 : ℤ)) = 2147483648 ∧
    unpackSimple [0x80, 0x00, 0x00, 0x00] 0 0 0 32 1 ≠ [2147483648] := by
  have hbits : specReadBits [0x80, 0x00, 0x00, 0x00] 0 32 = 2147483648 := by decide
  have hloop : readPackedLoop [0x80, 0x00, 0x00, 0x00] 32 0 32 0 0 = -2147483648 := by
    decide
  have hcell : unpackSimple [0x80, 0x00, 0x00, 0x00] 0 0 0 32 1 = [-2147483648] := by
    norm_num [unpackSimple, List.range_succ, List.range_zero, hloop]
  refine ⟨hcell, hbits, by rw [hbits]; norm_num, by rw [hcell]; simp; norm_num⟩

/-! ## Template 41: PNG-embedded packing (claim C6) -/

/-- Embedding of the per-pixel processing of unpackPng after a successful
sharp decode, as a function of the decoded raw pixel bytes and channel
count.  The source's two loops are merged into one per-index expression:
the first loop covers the integer indices i with i < numPoints and
i < data.length / channels (a JavaScript float division), and the second
loop, which starts at data.length / channels, assigns -999 only when that
start is an integer — when it is fractional every write targets a fractional
index of the Float32Array and is a no-op, leaving the zero initialization.
Faithful for channels > 0 (sharp reports 1..4 channels; JavaScript division
by zero would make every index pass the first bound instead). -/
def unpackPngDecoded (data : List ℕ) (channels : ℕ) (referenceValue : ℚ)
    (binaryScaleFactor decimalScaleFactor : ℤ)
    (bitsPerValue numPoints : ℕ) : List ℚ :=
  let binaryFactor : ℚ := 2 ^ binaryScaleFactor
  let decimalFactor : ℚ := 10 ^ (-decimalScaleFactor)
  (List.range numPoints).map fun (i : ℕ) =>
    if (i : ℚ) < (data.length : ℚ) / (channels : ℚ) then
      let packedValue : ℤ :=
        if bitsPerValue ≤ 8 then ((data.getD (i * channels) 0 : ℕ) : ℤ)
        else if bitsPerValue ≤ 16 ∧ 2 ≤ channels then
          jsOr (jsShl ((data.getD (i * channels) 0 : ℕ) : ℤ) 8)
            ((data.getD (i * channels + 1) 0 : ℕ) : ℤ)
        else ((data.getD (i * channels) 0 : ℕ) : ℤ)
      let rawValue := (referenceValue + (packedValue : ℚ) * binaryFactor) * decimalFactor
      if rawValue < -30 ∨ packedValue = 0 then -999 else rawValue
    else if channels ∣ data.length then -999 else 0

/-- Embedding of unpackPngFallback: bytes 8..end of the raw data section are
read as 8-bit packed values; cells past the buffer get the sentinel. -/
def unpackPngFallback (dataBuffer : List ℕ) (referenceValue : ℚ)
    (binaryScaleFactor decimalScaleFactor : ℤ) (numPoints : ℕ) : List ℚ :=
  let binaryFactor : ℚ := 2 ^ binaryScaleFactor
  let decimalFactor : ℚ := 10 ^ (-decimalScaleFactor)
  (List.range numPoints).map fun i =>
    let byteIndex := 8 + i
    if byteIndex < dataBuffer.length then
      (referenceValue + ((dataBuffer.getD byteIndex 0 : ℕ) : ℚ) * binaryFactor) *
        decimalFactor
    else -999

/-- Embedding of unpackPng (template 41).  The sharp PNG decode is an
external library call; it is modelled by the decoded argument: some (data,
channels) is a successful decode into raw pixel bytes, none is a decode
error, which the source catches and routes to unpackPngFallback. -/
def unpackPng (decoded : Option (List ℕ × ℕ)) (dataBuffer : List ℕ)
    (referenceValue : ℚ) (binaryScaleFactor decimalScaleFactor : ℤ)
    (bitsPerValue numPoints : ℕ) : List ℚ :=
  match decoded with
  | some (data, channels) =>
      unpackPngDecoded data channels referenceValue binaryScaleFactor
        decimalScaleFactor bitsPerValue numPoints
  | none =>
      unpackPngFallback dataBuffer referenceValue binaryScaleFactor
        decimalScaleFactor numPoints

/-- Claim C6: for template 41 with bits_per_value ≤ 8 each in-range cell i
takes X from the first channel of decoded pixel i and stores
(R + X * 2^E) * 10^(-D), except that the cell becomes the sentinel -999 when
X = 0 or the result is below -30; a failed PNG decode falls back to reading
bytes 8..end of the data section as raw 8-bit X values instead of erroring;
and a 2x1 single-channel image with pixels [100, 200] under R = 0, E = 0,
D = 0 decodes to the field [100, 200]. -/
theorem claim_C6_png_template41 :
    (∀ (data : List ℕ) (channels : ℕ) (dataBuffer : List ℕ) (R : ℚ) (E D : ℤ)
        (bpv numPoints i : ℕ), bpv ≤ 8 → i < numPoints →
        (i : ℚ) < (data.length : ℚ) / (channels : ℚ) →
        (unpackPng (some (data, channels)) dataBuffer R E D bpv numPoints)[i]? =
          some (if data.getD (i * channels) 0 = 0 ∨
                  (R + ((data.getD (i * channels) 0 : ℕ) : ℚ) * 2 ^ E) * 10 ^ (-D) < -30
                then -999
                else (R + ((data.getD (i * channels) 0 : ℕ) : ℚ) * 2 ^ E) * 10 ^ (-D))) ∧
    (∀ (dataBuffer : List ℕ) (R : ℚ) (E D : ℤ) (bpv numPoints : ℕ),
        unpackPng none dataBuffer R E D bpv numPoints =
          unpackPngFallback dataBuffer R E D numPoints) ∧
    (∀ (dataBuffer : List ℕ) (R : ℚ) (E D : ℤ) (numPoints i : ℕ), i < numPoints →
        (unpackPngFallback dataBuffer R E D numPoints)[i]? =
          some (if 8 + i < dataBuffer.length then
                  (R + ((dataBuffer.getD (8 + i) 0 : ℕ) : ℚ) * 2 ^ E) * 10 ^ (-D)
                else -999)) ∧
    unpackPng (some ([100, 200], 1)) [] 0 0 0 8 2 = [100, 200] := by
  refine ⟨?_, ?_, ?_, ?_⟩
  · intro data channels dataBuffer R E D bpv numPoints i hbpv hi hdiv
    simp only [unpackPng, unpackPngDecoded, List.getElem?_map, List.getElem?_range hi,
      Option.map_some']
    rw [if_pos hdiv, if_pos hbpv]
    have hcast : (((data.getD (i * channels) 0 : ℕ) : ℤ) : ℚ) =
        ((data.getD (i * channels) 0 : ℕ) : ℚ) := by push_cast; ring
    rw [hcast]
    refine congrArg some (if_congr ?_ rfl rfl)
    constructor
    · rintro (h | h)
      · exact Or.inr h
      · exact Or.inl (Nat.cast_eq_zero.mp h)
    · rintro (h | h)
      · exact Or.inr (Nat.cast_eq_zero.mpr h)
      · exact Or.inl h
  · intro dataBuffer R E D bpv numPoints
    rfl
  · intro dataBuffer R E D numPoints i hi
    simp only [unpackPngFallback, List.getElem?_map, List.getElem?_range hi,
      Option.map_some']
  · norm_num [unpackPng, unpackPngDecoded, List.range_succ, List.range_zero]

/-- Witness for C6: the general parts applied at the concrete 2x1 image. -/
theorem claim_C6_png_template41_witness :
    (unpackPng (some ([100, 200], 1)) [] 0 0 0 8 2)[1]? =
      some (if ([(100 : ℕ), 200].getD (1 * 1) 0 = 0 ∨
              ((0 : ℚ) + (([(100 : ℕ), 200].getD (1 * 1) 0 : ℕ) : ℚ) * 2 ^ (0 : ℤ)) *
                10 ^ (-(0 : ℤ)) < -30)
            then -999
            else ((0 : ℚ) + (([(100 : ℕ), 200].getD (1 * 1) 0 : ℕ) : ℚ) * 2 ^ (0 : ℤ)) *
              10 ^ (-(0 : ℤ))) ∧
    (unpackPngFallback [] 0 0 0 3)[2]? =
      some (if 8 + 2 < ([] : List ℕ).length then
              ((0 : ℚ) + ((([] : List ℕ).getD (8 + 2) 0 : ℕ) : ℚ) * 2 ^ (0 : ℤ)) *
                10 ^ (-(0 : ℤ))
            else -999) := by
  constructor
  · exact claim_C6_png_template41.1 [100, 200] 1 [] 0 0 0 8 2 1 (by norm_num)
      (by norm_num) (by norm_num)
  · exact claim_C6_png_template41.2.2.1 [] 0 0 0 3 2 (by norm_num)

/-! ## Color mapper (claim C5) -/

/-- RGBA color with integer channels. -/
abbrev Color := ℤ × ℤ × ℤ × ℤ

/-- Embedding of COLOR_SCALE, the 17-stop NWS reflectivity ramp. -/
def COLOR_SCALE : List (ℚ × Color) :=
  [(-30, (0, 0, 0, 0)),
   (0, (0, 0, 0, 0)),
   (5, (4, 68, 94, 160)),
   (10, (0, 160, 180, 200)),
   (15, (0, 200, 160, 220)),
   (20, (0, 230, 0, 240)),
   (25, (0, 200, 0, 250)),
   (30, (0, 144, 0, 255)),
   (35, (255, 255, 0, 255)),
   (40, (255, 192, 0, 255)),
   (45, (255, 128, 0, 255)),
   (50, (255, 0, 0, 255)),
   (55, (200, 0, 0, 255)),
   (60, (255, 0, 200, 255)),
   (65, (160, 0, 255, 255)),
   (70, (255, 255, 255, 255)),
   (75, (200, 200, 255, 255))]

/-- JavaScript Math.round: the nearest integer, ties rounded toward
positive infinity, which is the floor of x + 1/2. -/
def jsRound (q : ℚ) : ℤ := ⌊q + 1 / 2⌋

/-- Embedding of the pair-search loop of getColorForDbz: the first adjacent
pair with stops[i].dbz ≤ dbz < stops[i+1].dbz; none when the loop falls
through (lower and upper then keep their first/last defaults). -/
def findPairAux (dbz : ℚ) : List (ℚ × Color) → Option ((ℚ × Color) × (ℚ × Color))
  | a :: b :: rest =>
    if a.1 ≤ dbz ∧ dbz < b.1 then some (a, b) else findPairAux dbz (b :: rest)
  | _ => none

/-- Embedding of getColorForDbz.  The argument is none when the JavaScript
value is NaN (the source tests dbz < -900 || isNaN(dbz); NaN fails the <
test and passes isNaN, so both orders agree). -/
def getColorForDbz (dbz : Option ℚ) : Color :=
  match dbz with
  | none => (0, 0, 0, 0)
  | some dbz =>
    if dbz < -900 then (0, 0, 0, 0)
    else
      let d := (findPairAux dbz COLOR_SCALE).getD
        (COLOR_SCALE.getD 0 default, COLOR_SCALE.getD (COLOR_SCALE.length - 1) default)
      let lower := d.1
      let upper := d.2
      if dbz < (COLOR_SCALE.getD 0 default).1 then (COLOR_SCALE.getD 0 default).2
      else if (COLOR_SCALE.getD (COLOR_SCALE.length - 1) default).1 ≤ dbz then
        (COLOR_SCALE.getD (COLOR_SCALE.length - 1) default).2
      else
        let range := upper.1 - lower.1
        let t := if range = 0 then 0 else (dbz - lower.1) / range
        (jsRound ((lower.2.1 : ℚ) + t * ((upper.2.1 : ℚ) - (lower.2.1 : ℚ))),
         jsRound ((lower.2.2.1 : ℚ) + t * ((upper.2.2.1 : ℚ) - (lower.2.2.1 : ℚ))),
         jsRound ((lower.2.2.2.1 : ℚ) + t * ((upper.2.2.2.1 : ℚ) - (lower.2.2.2.1 : ℚ))),
         jsRound ((lower.2.2.2.2 : ℚ) + t * ((upper.2.2.2.2 : ℚ) - (lower.2.2.2.2 : ℚ))))

/-- Modelled from the spec (color mapper): channel-wise linear interpolation
between adjacent stops, rounded to the nearest integer. -/
def linearInterpSpec (lower upper : ℚ × Color) (dbz : ℚ) : Color :=
  let t := (dbz - lower.1) / (upper.1 - lower.1)
  (jsRound ((lower.2.1 : ℚ) + t * ((upper.2.1 : ℚ) - (lower.2.1 : ℚ))),
   jsRound ((lower.2.2.1 : ℚ) + t * ((upper.2.2.1 : ℚ) - (lower.2.2.1 : ℚ))),
   jsRound ((lower.2.2.2.1 : ℚ) + t * ((upper.2.2.2.1 : ℚ) - (lower.2.2.2.1 : ℚ))),
   jsRound ((lower.2.2.2.2 : ℚ) + t * ((upper.2.2.2.2 : ℚ) - (lower.2.2.2.2 : ℚ))))

lemma jsRound_intCast (c : ℤ) : jsRound ((c : ℚ)) = c := by
  unfold jsRound
  rw [Int.floor_eq_iff]
  constructor
  · norm_num
  · norm_num

lemma findPairAux_none_of_lt (dbz : ℚ) :
    ∀ l : List (ℚ × Color), (∀ p ∈ l, ¬ p.1 ≤ dbz) → findPairAux dbz l = none
  | [], _ => rfl
  | [a], _ => rfl
  | a :: b :: rest, h => by
    rw [findPairAux, if_neg]
    · exact findPairAux_none_of_lt dbz (b :: rest)
        (fun p hp => h p (List.mem_cons_of_mem a hp))
    · rintro ⟨h1, _⟩
      exact h a (List.mem_cons_self a _) h1

lemma findPairAux_none_of_ge (dbz : ℚ) :
    ∀ l : List (ℚ × Color), (∀ p ∈ l, ¬ dbz < p.1) → findPairAux dbz l = none
  | [], _ => rfl
  | [a], _ => rfl
  | a :: b :: rest, h => by
    rw [findPairAux, if_neg]
    · exact findPairAux_none_of_ge dbz (b :: rest)
        (fun p hp => h p (List.mem_cons_of_mem a hp))
    · rintro ⟨_, h2⟩
      exact h b (List.mem_cons_of_mem a (List.mem_cons_self b _)) h2

lemma findPairAux_adjacent (dbz : ℚ) :
    ∀ (l : List (ℚ × Color)) (i : ℕ) (a b : ℚ × Color),
      l.Pairwise (fun p q => p.1 ≤ q.1) →
      l[i]? = some a → l[i + 1]? = some b →
      a.1 ≤ dbz → dbz < b.1 →
      findPairAux dbz l = some (a, b)
  | [], i, a, b, _, ha, _, _, _ => by simp at ha
  | [x], i, a, b, _, _, hb, _, _ => by
    rcases i with _ | j <;> simp at hb
  | x :: y :: rest, 0, a, b, hsort, ha, hb, hal, hbu => by
    simp only [List.getElem?_cons_zero, Option.some.injEq] at ha
    simp only [List.getElem?_cons_succ, List.getElem?_cons_zero,
      Option.some.injEq] at hb
    subst ha
    subst hb
    rw [findPairAux, if_pos ⟨hal, hbu⟩]
  | x :: y :: rest, i + 1, a, b, hsort, ha, hb, hal, hbu => by
    rw [List.getElem?_cons_succ] at ha
    rw [List.getElem?_cons_succ] at hb
    have hsort2 := (List.pairwise_cons.mp hsort).2
    have hya : y.1 ≤ a.1 := by
      have hmem : a ∈ y :: rest := List.getElem?_mem ha
      rcases List.mem_cons.mp hmem with h | h
      · rw [h]
      · exact (List.pairwise_cons.mp hsort2).1 a h
    rw [findPairAux, if_neg]
    · exact findPairAux_adjacent dbz (y :: rest) i a b hsort2 ha hb hal hbu
    · rintro ⟨_, h2⟩
      exact absurd (lt_of_lt_of_le h2 (le_trans hya hal)) (lt_irrefl dbz)

lemma color_scale_sorted : COLOR_SCALE.Pairwise (fun p q => p.1 ≤ q.1) := by
  decide

lemma color_scale_bounds : ∀ p ∈ COLOR_SCALE, -30 ≤ p.1 ∧ p.1 ≤ 75 := by
  decide

lemma color_scale_first : (COLOR_SCALE.getD 0 default).1 = -30 := rfl

lemma color_scale_last :
    (COLOR_SCALE.getD (COLOR_SCALE.length - 1) default).1 = 75 := rfl

lemma getColor_below_first (dbz : ℚ) (h : dbz < (COLOR_SCALE.getD 0 default).1) :
    getColorForDbz (some dbz) = (COLOR_SCALE.getD 0 default).2 := by
  rw [color_scale_first] at h
  simp only [getColorForDbz]
  by_cases h9 : dbz < -900
  · rw [if_pos h9]
    rfl
  · rw [if_neg h9]
    have hnone : findPairAux dbz COLOR_SCALE = none :=
      findPairAux_none_of_lt dbz COLOR_SCALE
        (fun p hp h1 => absurd (lt_of_lt_of_le h (le_trans (color_scale_bounds p hp).1 h1))
          (lt_irrefl dbz))
    rw [hnone]
    simp only [Option.getD_none]
    rw [if_pos (by rw [color_scale_first]; exact h)]

lemma getColor_above_last (dbz : ℚ)
    (h : (COLOR_SCALE.getD (COLOR_SCALE.length - 1) default).1 ≤ dbz) :
    getColorForDbz (some dbz) = (COLOR_SCALE.getD (COLOR_SCALE.length - 1) default).2 := by
  rw [color_scale_last] at h
  have h9 : ¬ dbz < -900 := not_lt.mpr (le_trans (by norm_num) h)
  have hnone : findPairAux dbz COLOR_SCALE = none :=
    findPairAux_none_of_ge dbz COLOR_SCALE (fun p hp h1 =>
      absurd (lt_of_le_of_lt h (lt_of_lt_of_le h1 (color_scale_bounds p hp).2))
        (lt_irrefl (75 : ℚ)))
  have hfirst : ¬ dbz < (COLOR_SCALE.getD 0 default).1 := by
    rw [color_scale_first]
    exact not_lt.mpr (le_trans (by norm_num) h)
  have hlast : (COLOR_SCALE.getD (COLOR_SCALE.length - 1) default).1 ≤ dbz := by
    rw [color_scale_last]
    exact h
  simp only [getColorForDbz]
  rw [if_neg h9, hnone]
  simp only [Option.getD_none]
  rw [if_neg hfirst, if_pos hlast]

lemma getColor_interp (dbz : ℚ) (i : ℕ) (hi : i + 1 < COLOR_SCALE.length)
    (h1 : (COLOR_SCALE.getD i default).1 ≤ dbz)
    (h2 : dbz < (COLOR_SCALE.getD (i + 1) default).1) :
    getColorForDbz (some dbz) =
      linearInterpSpec (COLOR_SCALE.getD i default) (COLOR_SCALE.getD (i + 1) default) dbz := by
  have hii : i < COLOR_SCALE.length := by omega
  have ha : COLOR_SCALE[i]? = some (COLOR_SCALE.getD i default) := by
    rw [List.getElem?_eq_getElem hii, List.getD_eq_getElem _ _ hii]
  have hb : COLOR_SCALE[i + 1]? = some (COLOR_SCALE.getD (i + 1) default) := by
    rw [List.getElem?_eq_getElem hi, List.getD_eq_getElem _ _ hi]
  have hfound := findPairAux_adjacent dbz COLOR_SCALE i
    (COLOR_SCALE.getD i default) (COLOR_SCALE.getD (i + 1) default)
    color_scale_sorted ha hb h1 h2
  have hmema : COLOR_SCALE.getD i default ∈ COLOR_SCALE := by
    rw [List.getD_eq_getElem _ _ hii]
    exact List.getElem_mem hii
  have hmemb : COLOR_SCALE.getD (i + 1) default ∈ COLOR_SCALE := by
    rw [List.getD_eq_getElem _ _ hi]
    exact List.getElem_mem hi
  have hlo30 : (-30 : ℚ) ≤ (COLOR_SCALE.getD i default).1 :=
    (color_scale_bounds _ hmema).1
  have hhi75 : (COLOR_SCALE.getD (i + 1) default).1 ≤ 75 :=
    (color_scale_bounds _ hmemb).2
  have hlt : (COLOR_SCALE.getD i default).1 < (COLOR_SCALE.getD (i + 1) default).1 := by
    have hstrict : COLOR_SCALE.Pairwise (fun p q => p.1 < q.1) := by decide
    have hg := List.pairwise_iff_get.mp hstrict ⟨i, hii⟩ ⟨i + 1, hi⟩ (by simp)
    rw [List.get_eq_getElem, List.get_eq_getElem,
      ← List.getD_eq_getElem _ default hii, ← List.getD_eq_getElem _ default hi] at hg
    exact hg
  have h9 : ¬ dbz < -900 := by
    have hle : (-900 : ℚ) ≤ dbz := le_trans (by norm_num) (le_trans hlo30 h1)
    exact not_lt.mpr hle
  have hfirst : ¬ dbz < (COLOR_SCALE.getD 0 default).1 := by
    rw [color_scale_first]
    exact not_lt.mpr (le_trans hlo30 h1)
  have hlast : ¬ (COLOR_SCALE.getD (COLOR_SCALE.length - 1) default).1 ≤ dbz := by
    rw [color_scale_last]
    exact not_le.mpr (lt_of_lt_of_le h2 hhi75)
  have hrange : ¬ (COLOR_SCALE.getD (i + 1) default).1 - (COLOR_SCALE.getD i default).1 = 0 := by
    intro h0
    exact absurd (sub_eq_zero.mp h0).symm (ne_of_lt hlt)
  simp only [getColorForDbz]
  rw [if_neg h9, hfound]
  simp only [Option.getD_some]
  rw [if_neg hfirst, if_neg hlast, if_neg hrange]
  rfl

lemma linearInterp_at_lower (lower upper : ℚ × Color) :
    linearInterpSpec lower upper lower.1 = lower.2 := by
  unfold linearInterpSpec
  rw [sub_self, zero_div]
  simp only [zero_mul, add_zero, jsRound_intCast]

/-- Claim C5: the color mapper sends NaN and every dbz below -900 to the
transparent color (0,0,0,0); every dbz below the first stop to the first
stop's color; every dbz at or above the last stop (75) to the last stop's
color; and every other dbz to the channel-wise linear interpolation, rounded
to the nearest integer, between the adjacent stops with
stops[i].dbz ≤ dbz < stops[i+1].dbz; in particular at every stop dBZ the
returned color is exactly the stop color. -/
theorem claim_C5_color_mapper :
    (getColorForDbz none = (0, 0, 0, 0) ∧
      ∀ dbz : ℚ, dbz < -900 → getColorForDbz (some dbz) = (0, 0, 0, 0)) ∧
    (∀ dbz : ℚ, dbz < (COLOR_SCALE.getD 0 default).1 →
      getColorForDbz (some dbz) = (COLOR_SCALE.getD 0 default).2) ∧
    (∀ dbz : ℚ, (COLOR_SCALE.getD (COLOR_SCALE.length - 1) default).1 ≤ dbz →
      getColorForDbz (some dbz) = (COLOR_SCALE.getD (COLOR_SCALE.length - 1) default).2) ∧
    (∀ (dbz : ℚ) (i : ℕ), i + 1 < COLOR_SCALE.length →
      (COLOR_SCALE.getD i default).1 ≤ dbz →
      dbz < (COLOR_SCALE.getD (i + 1) default).1 →
      getColorForDbz (some dbz) =
        linearInterpSpec (COLOR_SCALE.getD i default)
          (COLOR_SCALE.getD (i + 1) default) dbz) ∧
    (∀ i : ℕ, i < COLOR_SCALE.length →
      getColorForDbz (some (COLOR_SCALE.getD i default).1) =
        (COLOR_SCALE.getD i default).2) := by
  refine ⟨⟨rfl, ?_⟩, getColor_below_first, getColor_above_last, getColor_interp, ?_⟩
  · intro dbz h
    simp only [getColorForDbz]
    rw [if_pos h]
  · intro i hi
    by_cases hlast : i = COLOR_SCALE.length - 1
    · subst hlast
      exact getColor_above_last _ (le_refl _)
    · have hi1 : i + 1 < COLOR_SCALE.length := by
        simp only [COLOR_SCALE, List.length_cons, List.length_nil] at hi hlast ⊢
        omega
      have hlt : (COLOR_SCALE.getD i default).1 < (COLOR_SCALE.getD (i + 1) default).1 := by
        have hstrict : COLOR_SCALE.Pairwise (fun p q => p.1 < q.1) := by decide
        have hii : i < COLOR_SCALE.length := by omega
        have := List.pairwise_iff_get.mp hstrict ⟨i, hii⟩ ⟨i + 1, hi1⟩ (by simp)
        rw [List.get_eq_getElem, List.get_eq_getElem, ← List.getD_eq_getElem _ default hii,
          ← List.getD_eq_getElem _ default hi1] at this
        exact this
      rw [getColor_interp _ i hi1 (le_refl _) hlt, linearInterp_at_lower]

/-- Witness for C5: the interpolation branch at dbz = 32 between the stops
at 30 and 35, exactness at the stop 35, and the two clamping branches. -/
theorem claim_C5_color_mapper_witness :
    getColorForDbz (some (32 : ℚ)) =
      linearInterpSpec (COLOR_SCALE.getD 7 default) (COLOR_SCALE.getD 8 default) 32 ∧
    getColorForDbz (some (COLOR_SCALE.getD 8 default).1) = (COLOR_SCALE.getD 8 default).2 ∧
    getColorForDbz (some (-50 : ℚ)) = (COLOR_SCALE.getD 0 default).2 ∧
    getColorForDbz (some (100 : ℚ)) =
      (COLOR_SCALE.getD (COLOR_SCALE.length - 1) default).2 := by
  refine ⟨claim_C5_color_mapper.2.2.2.1 32 7 (by decide) (by decide) (by decide),
    claim_C5_color_mapper.2.2.2.2 8 (by decide),
    claim_C5_color_mapper.2.1 (-50) (by decide),
    claim_C5_color_mapper.2.2.1 100 (by decide)⟩

/-! ## Raster renderer (claims C4 and C10) -/

/-- JavaScript truthiness coercion values[srcIdx] || -999 used by the
renderer: undefined (index out of range), NaN (modelled as none) and 0 are
falsy and become the sentinel; every other number passes through. -/
def jsTruthyOr (v : Option (Option ℚ)) (d : ℚ) : ℚ :=
  match v with
  | none => d
  | some none => d
  | some (some x) => if x = 0 then d else x

/-- Embedding of the source index computation of renderRadarPng for output
pixel (i, j): scanWestToEast = !(scanningMode & 0x80) and
scanNorthToSouth = !(scanningMode & 0x40) select whether i and j are copied
or mirrored; the fetch is values[srcY * width + srcX]. -/
def renderSrcIdx (width height scanningMode i j : ℕ) : ℕ :=
  let srcY := if scanningMode &&& 0x40 = 0 then j else height - 1 - j
  let srcX := if scanningMode &&& 0x80 = 0 then i else width - 1 - i
  srcY * width + srcX

/-- Embedding of the renderer's dBZ fetch for output pixel (i, j):
const dbz = values[srcIdx] || -999. -/
def renderDbzAt (values : List (Option ℚ)) (width height scanningMode i j : ℕ) : ℚ :=
  jsTruthyOr values[renderSrcIdx width height scanningMode i j]? (-999)

/-- Embedding of the renderer's double pixel loop in row-major top-left
order; pixel (i, j) sits at flat index j * width + i (the source writes the
four RGBA bytes at (j * width + i) * 4).  The PNG encoding by sharp is
external to the embedded computation. -/
def renderPixels (values : List (Option ℚ)) (width height scanningMode : ℕ) :
    List Color :=
  (List.range height).flatMap fun j =>
    (List.range width).map fun i =>
      getColorForDbz (some (renderDbzAt values width height scanningMode i j))

lemma flatMap_range_eq {α : Type} (f : ℕ → ℕ → α) (w : ℕ) :
    ∀ h : ℕ, ((List.range h).flatMap fun j => (List.range w).map (f j)) =
      (List.range (h * w)).map fun k => f (k / w) (k % w) := by
  intro h
  induction h with
  | zero => simp
  | succ h ih =>
    rw [List.range_succ, List.flatMap_append, ih, Nat.succ_mul, List.range_add,
      List.map_append]
    congr 1
    · simp only [List.flatMap_cons, List.flatMap_nil, List.append_nil]
      rw [List.map_map]
      apply List.map_congr_left
      intro i hik
      have hiw : i < w := List.mem_range.mp hik
      have hw : 0 < w := by omega
      simp only [Function.comp_apply]
      have hd : (h * w + i) / w = h := by
        rw [Nat.mul_comm h w, Nat.mul_add_div hw, Nat.div_eq_of_lt hiw, Nat.add_zero]
      have hm : (h * w + i) % w = i := by
        rw [Nat.mul_comm h w, Nat.mul_add_mod, Nat.mod_eq_of_lt hiw]
      rw [hd, hm]

lemma renderPixels_length (values : List (Option ℚ)) (width height scanningMode : ℕ) :
    (renderPixels values width height scanningMode).length = width * height := by
  unfold renderPixels
  rw [flatMap_range_eq]
  simp [Nat.mul_comm]

lemma renderPixels_getElem (values : List (Option ℚ))
    (width height scanningMode i j : ℕ) (hi : i < width) (hj : j < height) :
    (renderPixels values width height scanningMode)[j * width + i]? =
      some (getColorForDbz (some (renderDbzAt values width height scanningMode i j))) := by
  unfold renderPixels
  rw [flatMap_range_eq]
  have hw : 0 < width := by omega
  have hk : j * width + i < height * width := by
    calc j * width + i < j * width + width := by omega
    _ = (j + 1) * width := by ring
    _ ≤ height * width := Nat.mul_le_mul_right width (by omega)
  rw [List.getElem?_map, List.getElem?_range hk, Option.map_some']
  have hdiv : (j * width + i) / width = j := by
    rw [Nat.mul_comm j width, Nat.mul_add_div hw, Nat.div_eq_of_lt hi, Nat.add_zero]
  have hmod : (j * width + i) % width = i := by
    rw [Nat.mul_comm j width, Nat.mul_add_mod, Nat.mod_eq_of_lt hi]
  rw [hdiv, hmod]

lemma and_two_pow_eq_zero_iff (m k : ℕ) :
    m &&& 2 ^ k = 0 ↔ m.testBit k = false := by
  rw [Nat.and_two_pow]
  cases htb : m.testBit k <;> simp

/-- Claim C4: the renderer writes output pixel (i, j) in top-left row-major
order from source index src_y * width + src_x with src_x = i when bit 0x80
of the scanning mode is clear and width - 1 - i otherwise, and src_y = j
when bit 0x40 is clear and height - 1 - j otherwise; in particular, for
scanning mode 0xC0 on a 2x2 field [A, B, C, D] the output pixel order is
[D, C, B, A]. -/
theorem claim_C4_renderer_scanning_modes :
    (∀ (values : List (Option ℚ)) (width height scanningMode i j : ℕ),
      i < width → j < height →
      (renderPixels values width height scanningMode)[j * width + i]? =
        some (getColorForDbz (some (jsTruthyOr
          values[(if scanningMode.testBit 6 = false then j else height - 1 - j) * width +
            (if scanningMode.testBit 7 = false then i else width - 1 - i)]?
          (-999))))) ∧
    renderPixels [some 10, some 20, some 30, some 40] 2 2 0xC0 =
      [getColorForDbz (some 40), getColorForDbz (some 30),
        getColorForDbz (some 20), getColorForDbz (some 10)] := by
  constructor
  · intro values width height scanningMode i j hi hj
    rw [renderPixels_getElem values width height scanningMode i j hi hj]
    unfold renderDbzAt renderSrcIdx
    have h40 : (scanningMode &&& 0x40 = 0) = (scanningMode.testBit 6 = false) := by
      rw [show (0x40 : ℕ) = 2 ^ 6 from rfl]
      exact propext (and_two_pow_eq_zero_iff scanningMode 6)
    have h80 : (scanningMode &&& 0x80 = 0) = (scanningMode.testBit 7 = false) := by
      rw [show (0x80 : ℕ) = 2 ^ 7 from rfl]
      exact propext (and_two_pow_eq_zero_iff scanningMode 7)
    simp only [h40, h80]
  · have h0 : renderDbzAt [some 10, some 20, some 30, some 40] 2 2 0xC0 0 0 = 40 := by
      decide
    have h1 : renderDbzAt [some 10, some 20, some 30, some 40] 2 2 0xC0 1 0 = 30 := by
      decide
    have h2 : renderDbzAt [some 10, some 20, some 30, some 40] 2 2 0xC0 0 1 = 20 := by
      decide
    have h3 : renderDbzAt [some 10, some 20, some 30, some 40] 2 2 0xC0 1 1 = 10 := by
      decide
    apply List.ext_getElem?
    intro n
    match n with
    | 0 =>
      have := renderPixels_getElem [some 10, some 20, some 30, some 40] 2 2 0xC0 0 0
        (by norm_num) (by norm_num)
      simp only [show (0 : ℕ) * 2 + 0 = 0 from rfl] at this
      rw [this, h0]
      rfl
    | 1 =>
      have := renderPixels_getElem [some 10, some 20, some 30, some 40] 2 2 0xC0 1 0
        (by norm_num) (by norm_num)
      simp only [show (0 : ℕ) * 2 + 1 = 1 from rfl] at this
      rw [this, h1]
      rfl
    | 2 =>
      have := renderPixels_getElem [some 10, some 20, some 30, some 40] 2 2 0xC0 0 1
        (by norm_num) (by norm_num)
      simp only [show (1 : ℕ) * 2 + 0 = 2 from rfl] at this
      rw [this, h2]
      rfl
    | 3 =>
      have := renderPixels_getElem [some 10, some 20, some 30, some 40] 2 2 0xC0 1 1
        (by norm_num) (by norm_num)
      simp only [show (1 : ℕ) * 2 + 1 = 3 from rfl] at this
      rw [this, h3]
      rfl
    | m + 4 =>
      have hlen : (renderPixels [some 10, some 20, some 30, some 40] 2 2 0xC0).length = 4 :=
        renderPixels_length _ 2 2 0xC0
      rw [List.getElem?_eq_none (by rw [hlen]; omega),
        List.getElem?_eq_none (by simp)]

/-- Witness for C4: the general pixel formula applied at scanning mode 0xC0,
output pixel (1, 0) of the 2x2 field. -/
theorem claim_C4_renderer_scanning_modes_witness :
    (renderPixels [some 10, some 20, some 30, some 40] 2 2 0xC0)[(0 : ℕ) * 2 + 1]? =
      some (getColorForDbz (some (jsTruthyOr
        [some (10 : ℚ), some 20, some 30, some 40][(if (0xC0 : ℕ).testBit 6 = false then 0 else 2 - 1 - 0) * 2 +
          (if (0xC0 : ℕ).testBit 7 = false then 1 else 2 - 1 - 1)]?
        (-999)))) :=
  claim_C4_renderer_scanning_modes.1 [some 10, some 20, some 30, some 40] 2 2 0xC0 1 0
    (by norm_num) (by norm_num)

/-- Claim C10: the renderer is total (the pixel list always has width*height
entries) and coerces every falsy or absent field value to the missing
sentinel before color lookup: an out-of-range source index, a NaN cell, or a
cell holding exactly 0 dBZ all render as the missing color, which is the
transparent (0,0,0,0) — so a genuine 0 dBZ cell is indistinguishable from a
missing cell in the output. -/
theorem claim_C10_renderer_falsy_coercion :
    (∀ (values : List (Option ℚ)) (width height scanningMode : ℕ),
      (renderPixels values width height scanningMode).length = width * height) ∧
    (∀ (values : List (Option ℚ)) (width height scanningMode i j : ℕ),
      i < width → j < height →
      (values.length ≤ renderSrcIdx width height scanningMode i j ∨
        values[renderSrcIdx width height scanningMode i j]? = some none ∨
        values[renderSrcIdx width height scanningMode i j]? = some (some 0)) →
      (renderPixels values width height scanningMode)[j * width + i]? =
        some (getColorForDbz (some (-999)))) ∧
    getColorForDbz (some (-999)) = (0, 0, 0, 0) := by
  refine ⟨renderPixels_length, ?_, ?_⟩
  · intro values width height scanningMode i j hi hj hcase
    rw [renderPixels_getElem values width height scanningMode i j hi hj]
    have hdbz : renderDbzAt values width height scanningMode i j = -999 := by
      unfold renderDbzAt
      rcases hcase with hc | hc | hc
      · rw [List.getElem?_eq_none hc]
        rfl
      · rw [hc]
        rfl
      · rw [hc]
        simp [jsTruthyOr]
    rw [hdbz]
  · simp only [getColorForDbz]
    rw [if_pos (by norm_num)]

/-- Witness for C10: a 1x1 render over an empty field (source index 0 is out
of range) produces the transparent missing pixel. -/
theorem claim_C10_renderer_falsy_coercion_witness :
    (renderPixels [] 1 1 0)[(0 : ℕ) * 1 + 0]? =
      some (getColorForDbz (some (-999))) ∧
    getColorForDbz (some (-999)) = (0, 0, 0, 0) :=
  ⟨claim_C10_renderer_falsy_coercion.2.1 [] 1 1 0 0 0 (by norm_num) (by norm_num)
      (Or.inl (by simp [renderSrcIdx])),
    claim_C10_renderer_falsy_coercion.2.2⟩

/-! ## Grid template 0 (claim C8) -/

/-- Geographic bounds of the decoded grid. -/
structure Bounds where
  west : ℚ
  east : ℚ
  south : ℚ
  north : ℚ

/-- The grid record produced by parseGridTemplate0. -/
structure GridTemplate0 where
  numPoints : ℤ
  templateNum : ℤ
  width : ℤ
  height : ℤ
  lat1 : ℚ
  lon1 : ℚ
  lat2 : ℚ
  lon2 : ℚ
  dx : ℚ
  dy : ℚ
  scanningMode : ℕ
  bounds : Bounds

/-- The angle divisor of grid template 0: 10^6 when basic angle or
subdivisions is zero, else their product.  JavaScript computes the product
in float64; the exact product is used here, which agrees whenever it is
below 2^53 (always, for two u32 reads). -/
def template0AngleDivisor (buffer : List ℕ) (offset : ℕ) : ℚ :=
  if readUint buffer (offset + 24) 4 = 0 ∨ readUint buffer (offset + 28) 4 = 0
  then 1000000
  else ((readUint buffer (offset + 24) 4 * readUint buffer (offset + 28) 4 : ℤ) : ℚ)

/-- The raw (pre-normalization) first-corner longitude of template 0. -/
def template0RawLon1 (buffer : List ℕ) (offset : ℕ) : ℚ :=
  ((readInt buffer (offset + 36) 4 : ℤ) : ℚ) / template0AngleDivisor buffer offset

/-- The raw (pre-normalization) second-corner longitude of template 0. -/
def template0RawLon2 (buffer : List ℕ) (offset : ℕ) : ℚ :=
  ((readInt buffer (offset + 45) 4 : ℤ) : ℚ) / template0AngleDivisor buffer offset

/-- Embedding of parseGridTemplate0: lat/lon grid header decoding with the
single subtract-360 normalization of longitudes above 180 and axis-aligned
min/max bounds. -/
def parseGridTemplate0 (buffer : List ℕ) (offset : ℕ) (numPoints : ℤ) :
    GridTemplate0 :=
  let nx := readUint buffer (offset + 16) 4
  let ny := readUint buffer (offset + 20) 4
  let angleDivisor := template0AngleDivisor buffer offset
  let lat1 := ((readInt buffer (offset + 32) 4 : ℤ) : ℚ) / angleDivisor
  let lon1 := ((readInt buffer (offset + 36) 4 : ℤ) : ℚ) / angleDivisor
  let lat2 := ((readInt buffer (offset + 41) 4 : ℤ) : ℚ) / angleDivisor
  let lon2 := ((readInt buffer (offset + 45) 4 : ℤ) : ℚ) / angleDivisor
  let dx := ((readUint buffer (offset + 49) 4 : ℤ) : ℚ) / angleDivisor
  let dy := ((readUint buffer (offset + 53) 4 : ℤ) : ℚ) / angleDivisor
  let scanningMode := buffer.getD (offset + 57) 0
  let lon1n := if lon1 > 180 then lon1 - 360 else lon1
  let lon2n := if lon2 > 180 then lon2 - 360 else lon2
  { numPoints := numPoints
    templateNum := 0
    width := nx
    height := ny
    lat1 := lat1
    lon1 := lon1n
    lat2 := lat2
    lon2 := lon2n
    dx := dx
    dy := dy
    scanningMode := scanningMode
    bounds :=
      { west := min lon1n lon2n
        east := max lon1n lon2n
        south := min lat1 lat2
        north := max lat1 lat2 } }

/-- Claim C8 (amended): parseGridTemplate0 subtracts 360 from each raw
corner longitude greater than 180 (once), and its bounds are the
axis-aligned min/max of the two corners, so west ≤ east and south ≤ north
always hold; the claimed containment of the bounds in [-180, 180] does not
hold for all headers, because a longitude above 540 stays above 180 after
the single subtraction and longitudes are never clamped from below. -/
theorem claim_C8_longitude_normalization_amended :
    ∀ (buffer : List ℕ) (offset : ℕ) (numPoints : ℤ),
      (parseGridTemplate0 buffer offset numPoints).lon1 =
        (if template0RawLon1 buffer offset > 180
          then template0RawLon1 buffer offset - 360
          else template0RawLon1 buffer offset) ∧
      (parseGridTemplate0 buffer offset numPoints).lon2 =
        (if template0RawLon2 buffer offset > 180
          then template0RawLon2 buffer offset - 360
          else template0RawLon2 buffer offset) ∧
      (parseGridTemplate0 buffer offset numPoints).bounds.west =
        min (parseGridTemplate0 buffer offset numPoints).lon1
          (parseGridTemplate0 buffer offset numPoints).lon2 ∧
      (parseGridTemplate0 buffer offset numPoints).bounds.east =
        max (parseGridTemplate0 buffer offset numPoints).lon1
          (parseGridTemplate0 buffer offset numPoints).lon2 ∧
      (parseGridTemplate0 buffer offset numPoints).bounds.south =
        min (parseGridTemplate0 buffer offset numPoints).lat1
          (parseGridTemplate0 buffer offset numPoints).lat2 ∧
      (parseGridTemplate0 buffer offset numPoints).bounds.north =
        max (parseGridTemplate0 buffer offset numPoints).lat1
          (parseGridTemplate0 buffer offset numPoints).lat2 ∧
      (parseGridTemplate0 buffer offset numPoints).bounds.west ≤
        (parseGridTemplate0 buffer offset numPoints).bounds.east ∧
      (parseGridTemplate0 buffer offset numPoints).bounds.south ≤
        (parseGridTemplate0 buffer offset numPoints).bounds.north := by
  intro buffer offset numPoints
  refine ⟨rfl, rfl, rfl, rfl, rfl, rfl, min_le_max, min_le_max⟩

/-- A 58-byte template 0 body with basic angle 1, subdivisions 1 (divisor 1)
and both raw corner longitudes 900. -/
def c8Buffer : List ℕ :=
  List.replicate 24 0 ++ [0, 0, 0, 1, 0, 0, 0, 1] ++ List.replicate 4 0 ++
    [0, 0, 3, 132] ++ List.replicate 5 0 ++ [0, 0, 3, 132] ++ List.replicate 9 0

/-- Claim C8 counterexample: on c8Buffer the raw longitudes are 900, the
single subtraction leaves 540, and the produced bounds have east = west =
540 > 180, violating the claimed -180 ≤ west ≤ east ≤ 180. -/
theorem claim_C8_longitude_normalization_counterexample :
    (parseGridTemplate0 c8Buffer 0 1).bounds.east = 540 ∧
    ¬ (parseGridTemplate0 c8Buffer 0 1).bounds.east ≤ 180 := by
  have h24 : readUint c8Buffer 24 4 = 1 := by decide
  have h28 : readUint c8Buffer 28 4 = 1 := by decide
  have h32 : readInt c8Buffer 32 4 = 0 := by decide
  have h36 : readInt c8Buffer 36 4 = 900 := by decide
  have h41 : readInt c8Buffer 41 4 = 0 := by decide
  have h45 : readInt c8Buffer 45 4 = 900 := by decide
  have hdiv : template0AngleDivisor c8Buffer 0 = 1 := by
    unfold template0AngleDivisor
    rw [if_neg]
    · rw [h24, h28]
      norm_num
    · rw [h24, h28]
      norm_num
  have heast : (parseGridTemplate0 c8Buffer 0 1).bounds.east = 540 := by
    unfold parseGridTemplate0
    simp only [hdiv, h36, h45]
    norm_num
  exact ⟨heast, by rw [heast]; norm_num⟩

/-! ## Section parsers and the parseGrib2 pipeline (claim C7) -/

/-- The tagged error kinds of the pipeline.  The source throws Error objects
with distinct messages; each constructor stands for one of them. -/
inductive GribError where
  | invalidFormat : GribError
  | unsupportedEdition (edition : ℕ) : GribError
  | expectedSection (expected got : ℕ) : GribError
  | missingSection (n : ℕ) : GribError
  | unsupportedPacking (templateNum : ℤ) : GribError
deriving DecidableEq

/-- Decoded indicator section. -/
structure Section0 where
  discipline : ℕ
  edition : ℕ
  totalLength : ℕ

/-- Decoded identification section.  The source builds a Date from the
seven time fields; the fields themselves are kept here. -/
structure Section1 where
  length : ℤ
  centerId : ℤ
  subCenterId : ℤ
  year : ℤ
  month : ℕ
  day : ℕ
  hour : ℕ
  minute : ℕ
  second : ℕ

/-- The byte values of the "GRIB" magic. -/
def gribMagic : List ℕ := [71, 82, 73, 66]

/-- Node ascii decoding of a byte sequence: toString("ascii") strips the
highest bit of every byte, so the resulting characters are the bytes
masked with 0x7F. -/
def asciiBytes (l : List ℕ) : List ℕ := l.map (fun b => b &&& 127)

/-- Embedding of parseSection0.  The source compares
buffer.slice(0, 4).toString("ascii") with "GRIB"; ascii decoding strips the
high bit of each byte, so the check accepts exactly the buffers whose first
four bytes masked with 0x7F spell GRIB (a shorter buffer yields a shorter
string, which differs).  The 8-byte total length is read with
readBigUInt64BE, a true unsigned big-endian read, modelled by beUint; the
RangeError that JavaScript raises when fewer than 16 bytes are available is
outside the model (reads fall back to 0 instead). -/
def parseSection0 (buffer : List ℕ) : Except GribError Section0 :=
  if asciiBytes (buffer.take 4) ≠ gribMagic then .error .invalidFormat
  else
    let discipline := buffer.getD 6 0
    let edition := buffer.getD 7 0
    if edition ≠ 2 then .error (.unsupportedEdition edition)
    else
      .ok { discipline := discipline, edition := edition,
            totalLength := beUint buffer 8 8 }

/-- Embedding of parseSection1. -/
def parseSection1 (buffer : List ℕ) (offset : ℕ) : Except GribError Section1 :=
  let length := readUint buffer offset 4
  let sectionNum := buffer.getD (offset + 4) 0
  if sectionNum ≠ 1 then .error (.expectedSection 1 sectionNum)
  else
    .ok { length := length
          centerId := readUint buffer (offset + 5) 2
          subCenterId := readUint buffer (offset + 7) 2
          year := readUint buffer (offset + 12) 2
          month := buffer.getD (offset + 14) 0
          day := buffer.getD (offset + 15) 0
          hour := buffer.getD (offset + 16) 0
          minute := buffer.getD (offset + 17) 0
          second := buffer.getD (offset + 18) 0 }

/-- The grid record produced by parseGridTemplate30 (Lambert Conformal,
approximated with fixed CONUS bounds). -/
structure GridTemplate30 where
  numPoints : ℤ
  templateNum : ℤ
  width : ℤ
  height : ℤ
  lat1 : ℚ
  lon1 : ℚ
  bounds : Bounds

/-- Embedding of parseGridTemplate30. -/
def parseGridTemplate30 (buffer : List ℕ) (offset : ℕ) (numPoints : ℤ) :
    GridTemplate30 :=
  let nx := readUint buffer (offset + 16) 4
  let ny := readUint buffer (offset + 20) 4
  let lat1 := ((readInt buffer (offset + 24) 4 : ℤ) : ℚ) / 1000000
  let lon1 := ((readInt buffer (offset + 28) 4 : ℤ) : ℚ) / 1000000
  let lon1n := if lon1 > 180 then lon1 - 360 else lon1
  { numPoints := numPoints
    templateNum := 30
    width := nx
    height := ny
    lat1 := lat1
    lon1 := lon1n
    bounds := { west := -130, east := -60, south := 20, north := 55 } }

/-- The three shapes of grid info the source's parseSection3 can return
(a loosely-typed object in JavaScript, a tagged variant here). -/
inductive GridInfo where
  | base (numPoints : ℤ) (templateNum : ℤ) : GridInfo
  | t0 (g : GridTemplate0) : GridInfo
  | t30 (g : GridTemplate30) : GridInfo

/-- The numPoints field every variant carries. -/
def GridInfo.nPoints : GridInfo → ℤ
  | .base n _ => n
  | .t0 g => g.numPoints
  | .t30 g => g.numPoints

/-- The width field; the base variant has none in JavaScript (undefined),
modelled as 0. -/
def GridInfo.gWidth : GridInfo → ℤ
  | .base _ _ => 0
  | .t0 g => g.width
  | .t30 g => g.width

/-- The height field; undefined on the base variant, modelled as 0. -/
def GridInfo.gHeight : GridInfo → ℤ
  | .base _ _ => 0
  | .t0 g => g.height
  | .t30 g => g.height

/-- The bounds field, present only on the template variants. -/
def GridInfo.gBounds : GridInfo → Option Bounds
  | .base _ _ => none
  | .t0 g => some g.bounds
  | .t30 g => some g.bounds

/-- The scanning mode, present only on template 0. -/
def GridInfo.gScanningMode : GridInfo → Option ℕ
  | .t0 g => some g.scanningMode
  | _ => none

/-- Decoded grid definition section. -/
structure Section3 where
  length : ℤ
  gridInfo : GridInfo

/-- Embedding of parseSection3. -/
def parseSection3 (buffer : List ℕ) (offset : ℕ) : Except GribError Section3 :=
  let length := readUint buffer offset 4
  let sectionNum := buffer.getD (offset + 4) 0
  if sectionNum ≠ 3 then .error (.expectedSection 3 sectionNum)
  else
    let numPoints := readUint buffer (offset + 6) 4
    let templateNum := readUint buffer (offset + 12) 2
    .ok { length := length
          gridInfo :=
            if templateNum = 0 then
              GridInfo.t0 (parseGridTemplate0 buffer (offset + 14) numPoints)
            else if templateNum = 30 then
              GridInfo.t30 (parseGridTemplate30 buffer (offset + 14) numPoints)
            else GridInfo.base numPoints templateNum }

/-- Decoding of a big-endian IEEE-754 binary32 into an exact rational:
sign, 8 exponent bits, 23 mantissa bits.  Finite values decode exactly;
exponent 255 (NaN and the infinities) is mapped to 0 — no proved statement
depends on a non-finite reference value. -/
def readFloat32 (buffer : List ℕ) (offset : ℕ) : ℚ :=
  let b0 := buffer.getD offset 0
  let b1 := buffer.getD (offset + 1) 0
  let b2 := buffer.getD (offset + 2) 0
  let b3 := buffer.getD (offset + 3) 0
  let sign : ℚ := if b0 / 128 = 1 then -1 else 1
  let expo := b0 % 128 * 2 + b1 / 128
  let mant := b1 % 128 * 65536 + b2 * 256 + b3
  if expo = 0 then sign * (mant : ℚ) * (2 : ℚ) ^ (-(149 : ℤ))
  else if expo = 255 then 0
  else sign * ((2 ^ 23 + mant : ℕ) : ℚ) * (2 : ℚ) ^ ((expo : ℤ) - 150)

/-- Decoded data representation section.  In JavaScript the record carries
only the fields of its template; absent fields (undefined) are modelled as
0 and are never consulted: parseSection7 dispatches on templateNum and each
unpacker reads only fields its template sets. -/
structure Section5 where
  length : ℤ
  numDataPoints : ℤ
  templateNum : ℤ
  referenceValue : ℚ
  binaryScaleFactor : ℤ
  decimalScaleFactor : ℤ
  bitsPerValue : ℕ
  typeOfOriginalValues : ℕ
  typeOfCompression : ℕ
  targetCompressionRatio : ℕ

/-- Embedding of parseSection5. -/
def parseSection5 (buffer : List ℕ) (offset : ℕ) : Except GribError Section5 :=
  let length := readUint buffer offset 4
  let sectionNum := buffer.getD (offset + 4) 0
  if sectionNum ≠ 5 then .error (.expectedSection 5 sectionNum)
  else
    let numDataPoints := readUint buffer (offset + 5) 4
    let templateNum := readUint buffer (offset + 9) 2
    .ok
      (if templateNum = 0 then
        { length := length, numDataPoints := numDataPoints
          templateNum := templateNum
          referenceValue := readFloat32 buffer (offset + 11)
          binaryScaleFactor := readInt buffer (offset + 15) 2
          decimalScaleFactor := readInt buffer (offset + 17) 2
          bitsPerValue := buffer.getD (offset + 19) 0
          typeOfOriginalValues := 0, typeOfCompression := 0
          targetCompressionRatio := 0 }
      else if templateNum = 40 then
        { length := length, numDataPoints := numDataPoints
          templateNum := templateNum
          referenceValue := readFloat32 buffer (offset + 11)
          binaryScaleFactor := readInt buffer (offset + 15) 2
          decimalScaleFactor := readInt buffer (offset + 17) 2
          bitsPerValue := buffer.getD (offset + 19) 0
          typeOfOriginalValues := buffer.getD (offset + 20) 0
          typeOfCompression := buffer.getD (offset + 21) 0
          targetCompressionRatio := buffer.getD (offset + 22) 0 }
      else if templateNum = 41 then
        { length := length, numDataPoints := numDataPoints
          templateNum := templateNum
          referenceValue := readFloat32 buffer (offset + 11)
          binaryScaleFactor := readInt buffer (offset + 15) 2
          decimalScaleFactor := readInt buffer (offset + 17) 2
          bitsPerValue := buffer.getD (offset + 19) 0
          typeOfOriginalValues := buffer.getD (offset + 20) 0
          typeOfCompression := 0, targetCompressionRatio := 0 }
      else if templateNum = 200 then
        { length := length, numDataPoints := numDataPoints
          templateNum := templateNum
          referenceValue := 0, binaryScaleFactor := 0, decimalScaleFactor := 0
          bitsPerValue := 0
          typeOfOriginalValues := buffer.getD (offset + 11) 0
          typeOfCompression := 0, targetCompressionRatio := 0 }
      else
        { length := length, numDataPoints := numDataPoints
          templateNum := templateNum
          referenceValue := 0, binaryScaleFactor := 0, decimalScaleFactor := 0
          bitsPerValue := 0, typeOfOriginalValues := 0, typeOfCompression := 0
          targetCompressionRatio := 0 })

/-- Embedding of unpackJpeg2000Fallback (template 40): each data byte is
taken as the packed value; cells past the buffer get the sentinel. -/
def unpackJpeg2000Fallback (dataBuffer : List ℕ) (referenceValue : ℚ)
    (binaryScaleFactor decimalScaleFactor : ℤ) (numPoints : ℕ) : List ℚ :=
  let binaryFactor : ℚ := 2 ^ binaryScaleFactor
  let decimalFactor : ℚ := 10 ^ (-decimalScaleFactor)
  (List.range numPoints).map fun i =>
    if i < dataBuffer.length then
      (referenceValue + ((dataBuffer.getD i 0 : ℕ) : ℚ) * binaryFactor) * decimalFactor
    else -999

/-- Embedding of parseSection7: slice the section body and dispatch on the
packing template.  The pngDecode argument models the external sharp decode
(claim C6).  gridInfo.nPoints.toNat is the Float32Array allocation size; a
negative numPoints (only possible through the int32 wrap of readUint) would
make the JavaScript constructor throw and is out of the model. -/
def parseSection7 (pngDecode : List ℕ → Option (List ℕ × ℕ))
    (buffer : List ℕ) (offset : ℕ) (section5 : Section5) (gridInfo : GridInfo) :
    Except GribError (ℤ × List ℚ) :=
  let length := readUint buffer offset 4
  let sectionNum := buffer.getD (offset + 4) 0
  if sectionNum ≠ 7 then .error (.expectedSection 7 sectionNum)
  else
    let dataBuffer := (buffer.drop (offset + 5)).take (length - 5).toNat
    let numPoints := gridInfo.nPoints.toNat
    if section5.templateNum = 0 then
      .ok (length, unpackSimple dataBuffer section5.referenceValue
        section5.binaryScaleFactor section5.decimalScaleFactor
        section5.bitsPerValue numPoints)
    else if section5.templateNum = 40 then
      .ok (length, unpackJpeg2000Fallback dataBuffer section5.referenceValue
        section5.binaryScaleFactor section5.decimalScaleFactor numPoints)
    else if section5.templateNum = 41 then
      .ok (length, unpackPng (pngDecode dataBuffer) dataBuffer
        section5.referenceValue section5.binaryScaleFactor
        section5.decimalScaleFactor section5.bitsPerValue numPoints)
    else if section5.templateNum = 200 then
      .ok (length, unpackRunLength dataBuffer numPoints)
    else .error (.unsupportedPacking section5.templateNum)

/-- A buffer byte addressed by a possibly negative index.  JavaScript
yields undefined outside [0, length); every observation the scan makes of
such a byte (bitwise coercion inside readUint, equality with a section
number in 3..8, comparison with 8) treats undefined exactly like 0, which
is the value returned here. -/
def getByteZ (buffer : List ℕ) (i : ℤ) : ℕ :=
  if 0 ≤ i then buffer.getD i.toNat 0 else 0

/-- readUint at a possibly negative offset: the JavaScript bitwise
accumulator coerces the undefined out-of-range bytes to 0. -/
def readUintZ (buffer : List ℕ) (offset : ℤ) (bytes : ℕ) : ℤ :=
  (List.range bytes).foldl
    (fun value i => jsOr (jsShl value 8) ((getByteZ buffer (offset + i) : ℕ) : ℤ)) 0

/-- Result of a findSection scan: found carries the returned offset (the
source returns the raw offset, which its callers compare against -1);
notFound is the source returning -1 after the loop exits; stuck means the
fuel ran out, which can only happen when an int32-wrapped negative section
length makes the loop walk backward — the JavaScript loop then keeps
stepping (and can diverge), and no theorem below relies on this case. -/
inductive ScanResult where
  | found (offset : ℤ) : ScanResult
  | notFound : ScanResult
  | stuck : ScanResult
deriving DecidableEq

/-- Embedding of findSection over exact integer offsets: the loop guard
offset < buffer.length - 4, the match test, the stop conditions, and the
advance offset += length are all taken verbatim, including a negative
parsed length moving the offset backward.  The fuel bounds the iteration
count only: every run of the JavaScript loop that terminates within fuel
steps is reproduced exactly, and buffer.length + 1 fuel covers every run
whose advances are all positive. -/
def findSection (buffer : List ℕ) (sectionNum : ℕ) : ℕ → ℤ → ScanResult
  | 0, _ => .stuck
  | fuel + 1, offset =>
    if offset < (buffer.length : ℤ) - 4 then
      let length := readUintZ buffer offset 4
      let sec := getByteZ buffer (offset + 4)
      if sec = sectionNum then .found offset
      else if length = 0 ∨ sec = 8 ∨ sec > 8 then .notFound
      else findSection buffer sectionNum fuel (offset + length)
    else .notFound

/-- Embedding of the section 2 skip in parseGrib2: if the section at offset
is numbered 2, advance past it by its parsed length (an exact integer add,
as in the source). -/
def skipSection2 (buffer : List ℕ) (offset : ℤ) : ℤ :=
  if getByteZ buffer (offset + 4) = 2 then offset + readUintZ buffer offset 4
  else offset

/-- The record parseGrib2 returns (timestamp kept as its components). -/
structure ParsedGrib where
  year : ℤ
  month : ℕ
  day : ℕ
  hour : ℕ
  minute : ℕ
  second : ℕ
  width : ℤ
  height : ℤ
  bounds : Option Bounds
  scanningMode : Option ℕ
  values : List ℚ

/-- Embedding of parseGrib2: section 0 at offset 0, section 1 at 16, the
offset advance by section1.length and the optional section 2 skip as exact
integer arithmetic, then forward scans for sections 3, 5 and 7.  Each
found scan offset is compared with -1, as the source compares the returned
value with -1 (a scan returns -1 both when the loop exits and when a match
happens to sit at offset -1).  A stuck scan — fuel exhausted, reachable
only when an int32-wrapped negative section length makes the loop walk
backward, where the JavaScript loop keeps stepping and can diverge — is
mapped to the missing-section error; no theorem below depends on that
case.  A found offset is handed to the section parser through toNat: a
negative found offset other than -1 is likewise only reachable through
wrapped lengths and no theorem depends on it. -/
def parseGrib2 (pngDecode : List ℕ → Option (List ℕ × ℕ)) (buffer : List ℕ) :
    Except GribError ParsedGrib :=
  match parseSection0 buffer with
  | .error e => .error e
  | .ok _ =>
    match parseSection1 buffer 16 with
    | .error e => .error e
    | .ok section1 =>
      let offset2 := skipSection2 buffer (16 + section1.length)
      match findSection buffer 3 (buffer.length + 1) offset2 with
      | .notFound => .error (.missingSection 3)
      | .stuck => .error (.missingSection 3)
      | .found section3Offset =>
        if section3Offset = -1 then .error (.missingSection 3)
        else
          match parseSection3 buffer section3Offset.toNat with
          | .error e => .error e
          | .ok section3 =>
            match findSection buffer 5 (buffer.length + 1)
                (section3Offset + section3.length) with
            | .notFound => .error (.missingSection 5)
            | .stuck => .error (.missingSection 5)
            | .found section5Offset =>
              if section5Offset = -1 then .error (.missingSection 5)
              else
                match parseSection5 buffer section5Offset.toNat with
                | .error e => .error e
                | .ok section5 =>
                  match findSection buffer 7 (buffer.length + 1)
                      (section5Offset + section5.length) with
                  | .notFound => .error (.missingSection 7)
                  | .stuck => .error (.missingSection 7)
                  | .found section7Offset =>
                    if section7Offset = -1 then .error (.missingSection 7)
                    else
                      match parseSection7 pngDecode buffer section7Offset.toNat
                          section5 section3.gridInfo with
                      | .error e => .error e
                      | .ok s7 =>
                        .ok { year := section1.year
                              month := section1.month
                              day := section1.day
                              hour := section1.hour
                              minute := section1.minute
                              second := section1.second
                              width := section3.gridInfo.gWidth
                              height := section3.gridInfo.gHeight
                              bounds := section3.gridInfo.gBounds
                              scanningMode := section3.gridInfo.gScanningMode
                              values := s7.2 }

lemma parseSection0_of_bad_magic {buffer : List ℕ}
    (h : asciiBytes (buffer.take 4) ≠ gribMagic) :
    parseSection0 buffer = .error .invalidFormat := by
  unfold parseSection0
  rw [if_pos h]

lemma parseSection0_of_bad_edition {buffer : List ℕ}
    (hm : asciiBytes (buffer.take 4) = gribMagic) (he : buffer.getD 7 0 ≠ 2) :
    parseSection0 buffer = .error (.unsupportedEdition (buffer.getD 7 0)) := by
  simp only [parseSection0]
  rw [if_neg (not_not_intro hm), if_pos he]

lemma parseSection0_ok {buffer : List ℕ}
    (hm : asciiBytes (buffer.take 4) = gribMagic) (he : buffer.getD 7 0 = 2) :
    parseSection0 buffer =
      .ok { discipline := buffer.getD 6 0, edition := buffer.getD 7 0,
            totalLength := beUint buffer 8 8 } := by
  simp only [parseSection0]
  rw [if_neg (not_not_intro hm), if_neg (not_not_intro he)]

lemma parseSection0_error_cases {buffer : List ℕ} {e : GribError}
    (h : parseSection0 buffer = .error e) :
    (e = .invalidFormat ∧ asciiBytes (buffer.take 4) ≠ gribMagic) ∨
    (asciiBytes (buffer.take 4) = gribMagic ∧
      e = .unsupportedEdition (buffer.getD 7 0) ∧ buffer.getD 7 0 ≠ 2) := by
  by_cases hm : asciiBytes (buffer.take 4) = gribMagic
  · by_cases he : buffer.getD 7 0 = 2
    · rw [parseSection0_ok hm he] at h
      simp at h
    · rw [parseSection0_of_bad_edition hm he] at h
      simp only [Except.error.injEq] at h
      exact Or.inr ⟨hm, h.symm, he⟩
  · rw [parseSection0_of_bad_magic hm] at h
    simp only [Except.error.injEq] at h
    exact Or.inl ⟨h.symm, hm⟩

lemma parseSection0_ok_magic {buffer : List ℕ} {s : Section0}
    (h : parseSection0 buffer = .ok s) :
    asciiBytes (buffer.take 4) = gribMagic ∧ buffer.getD 7 0 = 2 := by
  by_cases hm : asciiBytes (buffer.take 4) = gribMagic
  · by_cases he : buffer.getD 7 0 = 2
    · exact ⟨hm, he⟩
    · rw [parseSection0_of_bad_edition hm he] at h
      simp at h
  · rw [parseSection0_of_bad_magic hm] at h
    simp at h

lemma parseSection1_error {buffer : List ℕ} {offset : ℕ} {e : GribError}
    (h : parseSection1 buffer offset = .error e) :
    ∃ got, e = .expectedSection 1 got := by
  simp only [parseSection1] at h
  split at h
  · simp only [Except.error.injEq] at h
    exact ⟨_, h.symm⟩
  · simp at h

lemma parseSection1_ok {buffer : List ℕ} {offset : ℕ}
    (h1 : buffer.getD (offset + 4) 0 = 1) :
    parseSection1 buffer offset =
      .ok { length := readUint buffer offset 4
            centerId := readUint buffer (offset + 5) 2
            subCenterId := readUint buffer (offset + 7) 2
            year := readUint buffer (offset + 12) 2
            month := buffer.getD (offset + 14) 0
            day := buffer.getD (offset + 15) 0
            hour := buffer.getD (offset + 16) 0
            minute := buffer.getD (offset + 17) 0
            second := buffer.getD (offset + 18) 0 } := by
  simp only [parseSection1]
  rw [if_neg (not_not_intro h1)]

lemma parseSection3_error {buffer : List ℕ} {offset : ℕ} {e : GribError}
    (h : parseSection3 buffer offset = .error e) :
    ∃ got, e = .expectedSection 3 got := by
  simp only [parseSection3] at h
  split at h
  · simp only [Except.error.injEq] at h
    exact ⟨_, h.symm⟩
  · simp at h

lemma parseSection3_ne_error {buffer : List ℕ} {offset : ℕ}
    (hb : buffer.getD (offset + 4) 0 = 3) (e : GribError) :
    parseSection3 buffer offset ≠ .error e := by
  simp only [parseSection3]
  rw [if_neg (not_not_intro hb)]
  simp

lemma parseSection3_ok_length {buffer : List ℕ} {offset : ℕ} {s : Section3}
    (h : parseSection3 buffer offset = .ok s) :
    s.length = readUint buffer offset 4 := by
  simp only [parseSection3] at h
  split at h
  · simp at h
  · simp only [Except.ok.injEq] at h
    rw [← h]

lemma parseSection5_error {buffer : List ℕ} {offset : ℕ} {e : GribError}
    (h : parseSection5 buffer offset = .error e) :
    ∃ got, e = .expectedSection 5 got := by
  simp only [parseSection5] at h
  split at h
  · simp only [Except.error.injEq] at h
    exact ⟨_, h.symm⟩
  · simp at h

lemma parseSection5_ne_error {buffer : List ℕ} {offset : ℕ}
    (hb : buffer.getD (offset + 4) 0 = 5) (e : GribError) :
    parseSection5 buffer offset ≠ .error e := by
  simp only [parseSection5]
  rw [if_neg (not_not_intro hb)]
  simp

lemma parseSection5_ok_length {buffer : List ℕ} {offset : ℕ} {s : Section5}
    (h : parseSection5 buffer offset = .ok s) :
    s.length = readUint buffer offset 4 := by
  simp only [parseSection5] at h
  split at h
  · simp at h
  · simp only [Except.ok.injEq] at h
    rw [← h]
    split
    · rfl
    · split
      · rfl
      · split
        · rfl
        · split
          · rfl
          · rfl

lemma parseSection7_error {dec : List ℕ → Option (List ℕ × ℕ)} {buffer : List ℕ}
    {offset : ℕ} {s5 : Section5} {gi : GridInfo} {e : GribError}
    (h : parseSection7 dec buffer offset s5 gi = .error e) :
    (∃ got, e = .expectedSection 7 got) ∨ ∃ t, e = .unsupportedPacking t := by
  simp only [parseSection7] at h
  split at h
  · simp only [Except.error.injEq] at h
    exact Or.inl ⟨_, h.symm⟩
  · split at h
    · simp at h
    · split at h
      · simp at h
      · split at h
        · simp at h
        · split at h
          · simp at h
          · simp only [Except.error.injEq] at h
            exact Or.inr ⟨_, h.symm⟩

/-- A found scan carries the matching section number: the byte four past
the returned offset (0 standing for the out-of-range undefined) is
sectionNum. -/
lemma findSection_found_byte {buffer : List ℕ} {n : ℕ} :
    ∀ {fuel : ℕ} {off o : ℤ},
      findSection buffer n fuel off = .found o → getByteZ buffer (o + 4) = n := by
  intro fuel
  induction fuel with
  | zero =>
    intro off o h
    simp [findSection] at h
  | succ fuel ih =>
    intro off o h
    simp only [findSection] at h
    split at h
    · split at h
      · simp only [ScanResult.found.injEq] at h
        subst h
        assumption
      · split at h
        · simp at h
        · exact ih h
    · simp at h

lemma parseGrib2_error_classified {dec : List ℕ → Option (List ℕ × ℕ)}
    {buffer : List ℕ} {e : GribError}
    (h : parseGrib2 dec buffer = .error e) :
    (e = .invalidFormat ∧ asciiBytes (buffer.take 4) ≠ gribMagic) ∨
    (asciiBytes (buffer.take 4) = gribMagic ∧
      e = .unsupportedEdition (buffer.getD 7 0) ∧ buffer.getD 7 0 ≠ 2) ∨
    (asciiBytes (buffer.take 4) = gribMagic ∧ buffer.getD 7 0 = 2 ∧
      ((∃ a b, e = .expectedSection a b) ∨ (∃ n, e = .missingSection n) ∨
        ∃ t, e = .unsupportedPacking t)) := by
  unfold parseGrib2 at h
  cases h0 : parseSection0 buffer with
  | error e0 =>
    simp only [h0] at h
    simp only [Except.error.injEq] at h
    rcases parseSection0_error_cases h0 with ⟨he0, hm⟩ | ⟨hm, he0, hed⟩
    · exact Or.inl ⟨(he0.symm.trans h).symm, hm⟩
    · exact Or.inr (Or.inl ⟨hm, (he0.symm.trans h).symm, hed⟩)
  | ok s0 =>
    obtain ⟨hm, he⟩ := parseSection0_ok_magic h0
    simp only [h0] at h
    cases h1 : parseSection1 buffer 16 with
    | error e1 =>
      simp only [h1] at h
      simp only [Except.error.injEq] at h
      obtain ⟨got, hgot⟩ := parseSection1_error h1
      exact Or.inr (Or.inr ⟨hm, he, Or.inl ⟨1, got, (hgot.symm.trans h).symm⟩⟩)
    | ok s1 =>
      simp only [h1] at h
      cases hf3 : findSection buffer 3 (buffer.length + 1)
          (skipSection2 buffer (16 + s1.length)) with
      | notFound =>
        simp only [hf3] at h
        simp only [Except.error.injEq] at h
        exact Or.inr (Or.inr ⟨hm, he, Or.inr (Or.inl ⟨3, h.symm⟩)⟩)
      | stuck =>
        simp only [hf3] at h
        simp only [Except.error.injEq] at h
        exact Or.inr (Or.inr ⟨hm, he, Or.inr (Or.inl ⟨3, h.symm⟩)⟩)
      | found o3 =>
        simp only [hf3] at h
        by_cases ho3 : o3 = -1
        · rw [if_pos ho3] at h
          simp only [Except.error.injEq] at h
          exact Or.inr (Or.inr ⟨hm, he, Or.inr (Or.inl ⟨3, h.symm⟩)⟩)
        · rw [if_neg ho3] at h
          cases h3 : parseSection3 buffer o3.toNat with
          | error e3 =>
            simp only [h3] at h
            simp only [Except.error.injEq] at h
            obtain ⟨got, hgot⟩ := parseSection3_error h3
            exact Or.inr (Or.inr ⟨hm, he, Or.inl ⟨3, got, (hgot.symm.trans h).symm⟩⟩)
          | ok s3 =>
            simp only [h3] at h
            cases hf5 : findSection buffer 5 (buffer.length + 1)
                (o3 + s3.length) with
            | notFound =>
              simp only [hf5] at h
              simp only [Except.error.injEq] at h
              exact Or.inr (Or.inr ⟨hm, he, Or.inr (Or.inl ⟨5, h.symm⟩)⟩)
            | stuck =>
              simp only [hf5] at h
              simp only [Except.error.injEq] at h
              exact Or.inr (Or.inr ⟨hm, he, Or.inr (Or.inl ⟨5, h.symm⟩)⟩)
            | found o5 =>
              simp only [hf5] at h
              by_cases ho5 : o5 = -1
              · rw [if_pos ho5] at h
                simp only [Except.error.injEq] at h
                exact Or.inr (Or.inr ⟨hm, he, Or.inr (Or.inl ⟨5, h.symm⟩)⟩)
              · rw [if_neg ho5] at h
                cases h5 : parseSection5 buffer o5.toNat with
                | error e5 =>
                  simp only [h5] at h
                  simp only [Except.error.injEq] at h
                  obtain ⟨got, hgot⟩ := parseSection5_error h5
                  exact Or.inr (Or.inr ⟨hm, he, Or.inl ⟨5, got, (hgot.symm.trans h).symm⟩⟩)
                | ok s5 =>
                  simp only [h5] at h
                  cases hf7 : findSection buffer 7 (buffer.length + 1)
                      (o5 + s5.length) with
                  | notFound =>
                    simp only [hf7] at h
                    simp only [Except.error.injEq] at h
                    exact Or.inr (Or.inr ⟨hm, he, Or.inr (Or.inl ⟨7, h.symm⟩)⟩)
                  | stuck =>
                    simp only [hf7] at h
                    simp only [Except.error.injEq] at h
                    exact Or.inr (Or.inr ⟨hm, he, Or.inr (Or.inl ⟨7, h.symm⟩)⟩)
                  | found o7 =>
                    simp only [hf7] at h
                    by_cases ho7 : o7 = -1
                    · rw [if_pos ho7] at h
                      simp only [Except.error.injEq] at h
                      exact Or.inr (Or.inr ⟨hm, he, Or.inr (Or.inl ⟨7, h.symm⟩)⟩)
                    · rw [if_neg ho7] at h
                      cases h7 : parseSection7 dec buffer o7.toNat s5 s3.gridInfo with
                      | error e7 =>
                        simp only [h7] at h
                        simp only [Except.error.injEq] at h
                        rcases parseSection7_error h7 with ⟨got, hgot⟩ | ⟨t, ht⟩
                        · exact Or.inr (Or.inr ⟨hm, he,
                            Or.inl ⟨7, got, (hgot.symm.trans h).symm⟩⟩)
                        · exact Or.inr (Or.inr ⟨hm, he,
                            Or.inr (Or.inr ⟨t, (ht.symm.trans h).symm⟩)⟩)
                      | ok s7 =>
                        simp only [h7] at h
                        simp at h

lemma parseGrib2_invalidFormat_iff (dec : List ℕ → Option (List ℕ × ℕ))
    (buffer : List ℕ) :
    parseGrib2 dec buffer = .error .invalidFormat ↔
      asciiBytes (buffer.take 4) ≠ gribMagic := by
  constructor
  · intro h
    rcases parseGrib2_error_classified h with ⟨_, hm⟩ | ⟨_, he, _⟩ | ⟨_, _, hcases⟩
    · exact hm
    · simp at he
    · rcases hcases with ⟨a, b, hc⟩ | ⟨n, hc⟩ | ⟨t, hc⟩ <;> simp at hc
  · intro hm
    unfold parseGrib2
    rw [parseSection0_of_bad_magic hm]

lemma parseGrib2_unsupportedEdition_iff (dec : List ℕ → Option (List ℕ × ℕ))
    (buffer : List ℕ) :
    (∃ ed, parseGrib2 dec buffer = .error (.unsupportedEdition ed)) ↔
      (asciiBytes (buffer.take 4) = gribMagic ∧ buffer.getD 7 0 ≠ 2) := by
  constructor
  · rintro ⟨ed, h⟩
    rcases parseGrib2_error_classified h with ⟨hinv, _⟩ | ⟨hm, _, hed⟩ | ⟨_, _, hcases⟩
    · simp at hinv
    · exact ⟨hm, hed⟩
    · rcases hcases with ⟨a, b, hc⟩ | ⟨n, hc⟩ | ⟨t, hc⟩ <;> simp at hc
  · rintro ⟨hm, he⟩
    refine ⟨buffer.getD 7 0, ?_⟩
    unfold parseGrib2
    rw [parseSection0_of_bad_edition hm he]

lemma parseGrib2_missingSection3 (dec : List ℕ → Option (List ℕ × ℕ))
    (buffer : List ℕ)
    (hm : asciiBytes (buffer.take 4) = gribMagic) (he : buffer.getD 7 0 = 2)
    (h1 : buffer.getD 20 0 = 1)
    (hf : findSection buffer 3 (buffer.length + 1)
      (skipSection2 buffer (16 + readUint buffer 16 4)) = .notFound) :
    parseGrib2 dec buffer = .error (.missingSection 3) := by
  have h1x : buffer.getD (16 + 4) 0 = 1 := h1
  simp only [parseGrib2, parseSection0_ok hm he, parseSection1_ok h1x, hf]

lemma parseGrib2_missingSection5 (dec : List ℕ → Option (List ℕ × ℕ))
    (buffer : List ℕ) (o3 : ℤ)
    (hm : asciiBytes (buffer.take 4) = gribMagic) (he : buffer.getD 7 0 = 2)
    (h1 : buffer.getD 20 0 = 1)
    (hf3 : findSection buffer 3 (buffer.length + 1)
      (skipSection2 buffer (16 + readUint buffer 16 4)) = .found o3)
    (ho3 : 0 ≤ o3)
    (hf5 : findSection buffer 5 (buffer.length + 1)
      (o3 + readUint buffer o3.toNat 4) = .notFound) :
    parseGrib2 dec buffer = .error (.missingSection 5) := by
  have h1x : buffer.getD (16 + 4) 0 = 1 := h1
  have hb := findSection_found_byte hf3
  simp only [getByteZ] at hb
  rw [if_pos (by omega : (0:ℤ) ≤ o3 + 4)] at hb
  have ht : (o3 + 4).toNat = o3.toNat + 4 := by omega
  rw [ht] at hb
  obtain ⟨s3, h3⟩ : ∃ s3, parseSection3 buffer o3.toNat = .ok s3 := by
    cases hp : parseSection3 buffer o3.toNat with
    | error e => exact absurd hp (parseSection3_ne_error hb e)
    | ok s => exact ⟨s, rfl⟩
  have hlen3 := parseSection3_ok_length h3
  have hne : ¬ o3 = -1 := by omega
  simp only [parseGrib2, parseSection0_ok hm he, parseSection1_ok h1x, hf3,
    if_neg hne, h3, hlen3, hf5]

lemma parseGrib2_missingSection7 (dec : List ℕ → Option (List ℕ × ℕ))
    (buffer : List ℕ) (o3 o5 : ℤ)
    (hm : asciiBytes (buffer.take 4) = gribMagic) (he : buffer.getD 7 0 = 2)
    (h1 : buffer.getD 20 0 = 1)
    (hf3 : findSection buffer 3 (buffer.length + 1)
      (skipSection2 buffer (16 + readUint buffer 16 4)) = .found o3)
    (ho3 : 0 ≤ o3)
    (hf5 : findSection buffer 5 (buffer.length + 1)
      (o3 + readUint buffer o3.toNat 4) = .found o5)
    (ho5 : 0 ≤ o5)
    (hf7 : findSection buffer 7 (buffer.length + 1)
      (o5 + readUint buffer o5.toNat 4) = .notFound) :
    parseGrib2 dec buffer = .error (.missingSection 7) := by
  have h1x : buffer.getD (16 + 4) 0 = 1 := h1
  have hb3 := findSection_found_byte hf3
  simp only [getByteZ] at hb3
  rw [if_pos (by omega : (0:ℤ) ≤ o3 + 4)] at hb3
  have ht3 : (o3 + 4).toNat = o3.toNat + 4 := by omega
  rw [ht3] at hb3
  obtain ⟨s3, h3⟩ : ∃ s3, parseSection3 buffer o3.toNat = .ok s3 := by
    cases hp : parseSection3 buffer o3.toNat with
    | error e => exact absurd hp (parseSection3_ne_error hb3 e)
    | ok s => exact ⟨s, rfl⟩
  have hlen3 := parseSection3_ok_length h3
  have hb5 := findSection_found_byte hf5
  simp only [getByteZ] at hb5
  rw [if_pos (by omega : (0:ℤ) ≤ o5 + 4)] at hb5
  have ht5 : (o5 + 4).toNat = o5.toNat + 4 := by omega
  rw [ht5] at hb5
  obtain ⟨s5, h5⟩ : ∃ s5, parseSection5 buffer o5.toNat = .ok s5 := by
    cases hp : parseSection5 buffer o5.toNat with
    | error e => exact absurd hp (parseSection5_ne_error hb5 e)
    | ok s => exact ⟨s, rfl⟩
  have hlen5 := parseSection5_ok_length h5
  have hne3 : ¬ o3 = -1 := by omega
  have hne5 : ¬ o5 = -1 := by omega
  simp only [parseGrib2, parseSection0_ok hm he, parseSection1_ok h1x, hf3,
    if_neg hne3, h3, hlen3, hf5, if_neg hne5, h5, hlen5, hf7]

/-- Section bytes of a message with sections 0, 1, 5, 7 and no section 3:
16-byte indicator ("GRIB", edition 2), a 21-byte section 1, a 12-byte
section 5 and a 6-byte section 7. -/
def e4Buffer : List ℕ :=
  [71, 82, 73, 66, 0, 0, 0, 2] ++ List.replicate 8 0 ++
    [0, 0, 0, 21, 1] ++ List.replicate 16 0 ++
    [0, 0, 0, 12, 5] ++ List.replicate 7 0 ++
    [0, 0, 0, 6, 7, 0]

/-- A message with sections 0, 1, 3, 7 and no section 5: 16-byte
indicator, a 21-byte section 1, a 15-byte section 3 (grid template 200,
the base variant) and a 6-byte section 7. -/
def e5Buffer : List ℕ :=
  [71, 82, 73, 66, 0, 0, 0, 2] ++ List.replicate 8 0 ++
    [0, 0, 0, 21, 1] ++ List.replicate 16 0 ++
    [0, 0, 0, 15, 3] ++ List.replicate 7 0 ++ [0, 200, 0] ++
    [0, 0, 0, 6, 7, 0]

/-- A message with sections 0, 1, 3, 5 and no section 7: 16-byte
indicator, a 21-byte section 1, a 15-byte section 3 and a 12-byte
section 5. -/
def e7Buffer : List ℕ :=
  [71, 82, 73, 66, 0, 0, 0, 2] ++ List.replicate 8 0 ++
    [0, 0, 0, 21, 1] ++ List.replicate 16 0 ++
    [0, 0, 0, 15, 3] ++ List.replicate 7 0 ++ [0, 200, 0] ++
    [0, 0, 0, 12, 5] ++ List.replicate 7 0

/-- The e4Buffer message with the high bit of each magic byte set
(0xC7 0xD2 0xC9 0xC2): ascii decoding strips the high bits, so the
program reads the magic as "GRIB" and accepts it. -/
def asciiMagicBuffer : List ℕ :=
  [199, 210, 201, 194, 0, 0, 0, 2] ++ List.replicate 8 0 ++
    [0, 0, 0, 21, 1] ++ List.replicate 16 0 ++
    [0, 0, 0, 12, 5] ++ List.replicate 7 0 ++
    [0, 0, 0, 6, 7, 0]

/-- Claim C7, amended: the source checks the magic through
buffer.slice(0, 4).toString("ascii"), and ascii decoding strips the
highest bit of every byte, so parsing fails with InvalidFormat exactly
when the first four bytes masked with 0x7F do not spell "GRIB" (not when
the raw bytes differ); among magic-accepted inputs it fails with
UnsupportedEdition exactly when byte 7 is not 2; when sections 0 and 1
parse and a terminating forward scan cannot find section 3, 5 or 7
(scans that walk backward through an int32-wrapped negative length are
outside these hypotheses), it fails with the matching MissingSection
error; the concrete messages with sections 0,1,5,7 / 0,1,3,7 / 0,1,3,5
fail with MissingSection(3) / (5) / (7).  Errors are modelled in Except,
so no parsed result is produced on any of these paths. -/
theorem claim_C7_error_paths_amended :
    (∀ (pngDecode : List ℕ → Option (List ℕ × ℕ)) (buffer : List ℕ),
      parseGrib2 pngDecode buffer = .error .invalidFormat ↔
        asciiBytes (buffer.take 4) ≠ gribMagic) ∧
    (∀ (pngDecode : List ℕ → Option (List ℕ × ℕ)) (buffer : List ℕ),
      (∃ ed, parseGrib2 pngDecode buffer = .error (.unsupportedEdition ed)) ↔
        (asciiBytes (buffer.take 4) = gribMagic ∧ buffer.getD 7 0 ≠ 2)) ∧
    (∀ (pngDecode : List ℕ → Option (List ℕ × ℕ)) (buffer : List ℕ),
      asciiBytes (buffer.take 4) = gribMagic → buffer.getD 7 0 = 2 →
      buffer.getD 20 0 = 1 →
      findSection buffer 3 (buffer.length + 1)
        (skipSection2 buffer (16 + readUint buffer 16 4)) = .notFound →
      parseGrib2 pngDecode buffer = .error (.missingSection 3)) ∧
    (∀ (pngDecode : List ℕ → Option (List ℕ × ℕ)) (buffer : List ℕ) (o3 : ℤ),
      asciiBytes (buffer.take 4) = gribMagic → buffer.getD 7 0 = 2 →
      buffer.getD 20 0 = 1 →
      findSection buffer 3 (buffer.length + 1)
        (skipSection2 buffer (16 + readUint buffer 16 4)) = .found o3 →
      0 ≤ o3 →
      findSection buffer 5 (buffer.length + 1)
        (o3 + readUint buffer o3.toNat 4) = .notFound →
      parseGrib2 pngDecode buffer = .error (.missingSection 5)) ∧
    (∀ (pngDecode : List ℕ → Option (List ℕ × ℕ)) (buffer : List ℕ)
        (o3 o5 : ℤ),
      asciiBytes (buffer.take 4) = gribMagic → buffer.getD 7 0 = 2 →
      buffer.getD 20 0 = 1 →
      findSection buffer 3 (buffer.length + 1)
        (skipSection2 buffer (16 + readUint buffer 16 4)) = .found o3 →
      0 ≤ o3 →
      findSection buffer 5 (buffer.length + 1)
        (o3 + readUint buffer o3.toNat 4) = .found o5 →
      0 ≤ o5 →
      findSection buffer 7 (buffer.length + 1)
        (o5 + readUint buffer o5.toNat 4) = .notFound →
      parseGrib2 pngDecode buffer = .error (.missingSection 7)) ∧
    parseGrib2 (fun _ => none) e4Buffer = .error (.missingSection 3) ∧
    parseGrib2 (fun _ => none) e5Buffer = .error (.missingSection 5) ∧
    parseGrib2 (fun _ => none) e7Buffer = .error (.missingSection 7) := by
  refine ⟨parseGrib2_invalidFormat_iff, parseGrib2_unsupportedEdition_iff,
    parseGrib2_missingSection3, parseGrib2_missingSection5,
    parseGrib2_missingSection7, ?_, ?_, ?_⟩
  · exact parseGrib2_missingSection3 (fun _ => none) e4Buffer (by decide)
      (by decide) (by decide) (by decide)
  · exact parseGrib2_missingSection5 (fun _ => none) e5Buffer 37 (by decide)
      (by decide) (by decide) (by decide) (by decide) (by decide)
  · exact parseGrib2_missingSection7 (fun _ => none) e7Buffer 37 52 (by decide)
      (by decide) (by decide) (by decide) (by decide) (by decide) (by decide)
      (by decide)

/-- Counterexample to claim C7 as stated: the first four bytes
0xC7 0xD2 0xC9 0xC2 are not "GRIB", yet the magic check accepts them —
toString("ascii") strips each byte's high bit — and parsing proceeds to
fail with MissingSection(3) instead of InvalidFormat, so "InvalidFormat
exactly when the first four bytes are not GRIB" is false of the program. -/
theorem claim_C7_error_paths_counterexample :
    asciiMagicBuffer.take 4 ≠ gribMagic ∧
    parseGrib2 (fun _ => none) asciiMagicBuffer = .error (.missingSection 3) ∧
    ¬ (parseGrib2 (fun _ => none) asciiMagicBuffer = .error .invalidFormat ↔
        asciiMagicBuffer.take 4 ≠ gribMagic) := by
  have h := parseGrib2_missingSection3 (fun _ => none) asciiMagicBuffer
    (by decide) (by decide) (by decide) (by decide)
  refine ⟨by decide, h, fun hiff => ?_⟩
  have h2 := hiff.mpr (by decide)
  rw [h] at h2
  simp at h2

/-- Witness for the amended C7: the missing-section-5 path applied at the
concrete sections 0, 1, 3, 7 message, whose section-3 scan finds offset 37
and whose section-5 scan terminates without a match. -/
theorem claim_C7_error_paths_amended_witness :
    parseGrib2 (fun _ => none) e5Buffer = .error (.missingSection 5) :=
  claim_C7_error_paths_amended.2.2.2.1 (fun _ => none) e5Buffer 37 (by decide)
    (by decide) (by decide) (by decide) (by decide) (by decide)

end Grib
